import Mathlib

/-!
# Verification development for `homes.go` (package `tibber`)

A shallow embedding of the query construction and typed-response mapping layer
of the Tibber client, followed by theorems about it.

Modelling conventions:

* Go `string` values are Lean `String`s.  Every template in the source is pure
  ASCII, and `fmt.Sprintf` copies a `%s` operand through unchanged.
* Go slices are `Slice α`: a slice is either `nil` or a non-nil slice carrying
  its elements, so that `nil` and `[]T{}` stay distinguishable.
* `float64` values are carried as their IEEE-754 binary64 bit pattern and
  `time.Time` values as an instant; the code never computes with either, it
  only moves them from the decoded envelope to the caller.
* The transport (`graphql.Client.Run`) is an arbitrary function from the request
  and the initial (zero) result to the written result and an optional error.
* Effects are made explicit: every getter returns, next to its Go result pair,
  the trace of transport calls and `log.Error` calls it performed.
-/

set_option linter.dupNamespace false
set_option maxRecDepth 100000

namespace Tibber

/-! ## Primitive carriers -/

/-- Go `float64`, carried as the IEEE-754 binary64 bit pattern. Zero value: `+0`. -/
structure Float64 where
  bits : Nat := 0
deriving DecidableEq

/-- Go `time.Time`, carried as seconds and nanoseconds since
0001-01-01T00:00:00Z. The zero value is the Go zero time. -/
structure Time where
  sec : Int := 0
  nsec : Nat := 0
deriving DecidableEq

/-- Go slice: `nil`, or a non-nil slice with the listed elements. -/
inductive Slice (α : Type) where
  | nil : Slice α
  | lit (elems : List α) : Slice α
deriving DecidableEq

/-- Elements of a slice in order; `nil` has none. -/
def Slice.toList {α : Type} : Slice α → List α
  | Slice.nil => []
  | Slice.lit xs => xs

/-- Go `len`. -/
def Slice.len {α : Type} (s : Slice α) : Nat := s.toList.length

/-- Go `error` values; `Option Error` is the interface, `none` being `nil`. -/
structure Error where
  text : String
deriving DecidableEq

/-! ## Domain model (`homes.go` lines 13-138) -/

structure PreviousMeterData where
  Power : Float64 := {}
  PowerProduction : Float64 := {}
deriving DecidableEq

structure Address where
  Address1 : String := ""
  Address2 : String := ""
  Address3 : String := ""
  PostalCode : String := ""
  City : String := ""
  Country : String := ""
  Latitude : String := ""
  Longitude : String := ""
deriving DecidableEq

structure MeteringPointData where
  ConsumptionEan : String := ""
deriving DecidableEq

structure Features where
  RealTimeConsumptionEnabled : Bool := false
deriving DecidableEq

structure PriceRatingThresholdPercentages where
  High : Float64 := {}
  Low : Float64 := {}
deriving DecidableEq

structure PriceRatingEntry where
  Time : Time := {}
  Energy : Float64 := {}
  Total : Float64 := {}
  Tax : Float64 := {}
  Difference : Float64 := {}
  Level : String := ""
deriving DecidableEq

structure PriceRatingType where
  MinEnergy : Float64 := {}
  MaxEnergy : Float64 := {}
  MinTotal : Float64 := {}
  MaxTotal : Float64 := {}
  Currency : String := ""
  Entries : Slice PriceRatingEntry := Slice.nil
deriving DecidableEq

structure PriceRating where
  ThresholdPercentages : PriceRatingThresholdPercentages := {}
  Hourly : PriceRatingType := {}
  Daily : PriceRatingType := {}
  Monthly : PriceRatingType := {}
deriving DecidableEq

structure Price where
  Level : String := ""
  Total : Float64 := {}
  Energy : Float64 := {}
  Tax : Float64 := {}
  Currency : String := ""
  StartsAt : Time := {}
deriving DecidableEq

structure PriceInfo where
  Current : Price := {}
  Today : Slice Price := Slice.nil
  Tomorrow : Slice Price := Slice.nil
deriving DecidableEq

structure CurrentSubscription where
  PriceInfo : PriceInfo := {}
  PriceRating : PriceRating := {}
deriving DecidableEq

structure Consumption where
  From : Time := {}
  To : Time := {}
  Cost : Float64 := {}
  UnitPrice : Float64 := {}
  UnitPriceVAT : Float64 := {}
  Consumption : Float64 := {}
  ConsumptionUnit : String := ""
  Currency : String := ""
deriving DecidableEq

structure HomeConsumptionConnection where
  Nodes : Slice Consumption := Slice.nil
deriving DecidableEq

structure Home where
  ID : String := ""
  AppNickname : String := ""
  MeteringPointData : MeteringPointData := {}
  Features : Features := {}
  Address : Address := {}
  Size : Int := 0
  MainFuseSize : Int := 0
  NumberOfResidents : Int := 0
  PrimaryHeatingSource : String := ""
  HasVentilationSystem : Bool := false
  CurrentSubscription : CurrentSubscription := {}
  PreviousMeterData : PreviousMeterData := {}
  Consumption : HomeConsumptionConnection := {}
deriving DecidableEq

structure HomesViewer where
  Homes : Slice Home := Slice.nil
deriving DecidableEq

structure HomesResponse where
  Viewer : HomesViewer := {}
deriving DecidableEq

structure HomeViewer where
  Homes : Slice Home := Slice.nil
  Home : Home := {}
deriving DecidableEq

structure HomeResponse where
  Viewer : HomeViewer := {}
deriving DecidableEq

/-! ## Resolution enumerator (`homes.go` lines 140-155) -/

/-- Go `type PriceResolution int64`; every integer is a value of the type. -/
abbrev PriceResolution := Int

def HOURLY : PriceResolution := 0

def DAILY : PriceResolution := 1

def PriceResolution.String (s : PriceResolution) : String :=
  if s = HOURLY then "HOURLY"
  else if s = DAILY then "DAILY"
  else "unknown"

/-! ## Library functions used by the getters -/

/-- Scanner of `fmt.Sprintf`, restricted to what the source uses: the verb `%s`
applied to operands that are already strings (a `string`, or the `String()` of a
`fmt.Stringer`), which is copied through unchanged, and the escape `%%`. A
`%s` without an operand prints `%!s(MISSING)` and a `%` ending the format prints
`%!(NOVERB)`. Any other verb is copied through; no template of the source
contains one. -/
def sprintfAux : List Char → List String → List Char
  | [], _ => []
  | [c], _ => if c = '%' then "%!(NOVERB)".data else [c]
  | c :: d :: rest, args =>
    if c = '%' then
      if d = 's' then
        match args with
        | a :: args' => a.data ++ sprintfAux rest args'
        | [] => "%!s(MISSING)".data ++ sprintfAux rest []
      else if d = '%' then '%' :: sprintfAux rest args
      else c :: d :: sprintfAux rest args
    else c :: sprintfAux (d :: rest) args

/-- Go `fmt.Sprintf(format, args...)` on string operands. -/
def Sprintf (format : String) (args : List String) : String :=
  String.mk (sprintfAux format.data args)

/-- Go `strconv.Itoa`: the decimal rendering of an integer, with a leading `-`
for a negative one. -/
def Itoa (i : Int) : String :=
  match i with
  | Int.ofNat n => Nat.repr n
  | Int.negSucc n => "-" ++ Nat.repr (n + 1)

/-- Go `http.Header`: a map from header name to its list of values, kept as an
association list with at most one entry per name. -/
abbrev Header := List (String × List String)

/-- Go `http.Header.Set`: replaces whatever values the name had by the single
given value. Both names the source sets are already in canonical MIME form, so
canonicalisation leaves them as they are. -/
def Header.Set (h : Header) (key value : String) : Header :=
  (key, [value]) :: h.filter (fun kv => kv.1 != key)

/-- Values stored under a header name (Go `h[key]`); `none` when unset. -/
def Header.values (h : Header) (key : String) : Option (List String) :=
  (h.find? (fun kv => kv.1 == key)).map Prod.snd

/-- The part of `graphql.Request` the source touches: the query text and the
HTTP header map. -/
structure Request where
  q : String
  Header : Header
deriving DecidableEq

/-- Go `graphql.NewRequest`: a request for the query with an empty header map. -/
def NewRequest (q : String) : Request := { q := q, Header := [] }

/-- Transport handle (`*graphql.Client`). `Run(ctx, req, &result)` receives the
request and the caller's result variable and yields what it wrote to the
variable and the error it returned. The source calls it at two result types. -/
structure GqlClient where
  RunHomes : Request → HomesResponse → HomesResponse × Option Error
  RunHome : Request → HomeResponse → HomeResponse × Option Error

/-- Modelled from the spec: the `Client` record is declared outside `homes.go`;
the getters read exactly its bearer `Token` and its transport handle
`gqlClient` ("the only per-client state is an immutable bearer token and a
transport handle"). -/
structure Client where
  Token : String
  gqlClient : GqlClient

/-- Observable effects of a getter. -/
inductive Event where
  | run (req : Request) : Event
  | logError (err : Error) : Event
deriving DecidableEq

/-- What a getter call produces: the Go result pair and the effects performed,
in program order. -/
structure Outcome (α : Type) where
  value : α
  err : Option Error
  trace : List Event

/-! ## Query templates (the raw string literals of `homes.go`) -/

def GetHomes.template : String :=
  "\n" ++
  "\t\tquery \x7b\n" ++
  "\t\t\tviewer \x7b\n" ++
  "\t\t\t\thomes \x7b\n" ++
  "\t\t\t\t\tid\n" ++
  "\t\t\t\t\tappNickname\n" ++
  "      \t\t\t\tmeteringPointData\x7b\n" ++
  "        \t\t\t\tconsumptionEan\n" ++
  "      \t\t\t\t\x7d\n" ++
  "\t\t\t\t\tfeatures \x7b\n" ++
  "\t\t\t\t\t\trealTimeConsumptionEnabled\n" ++
  "\t\t\t\t\t\x7d\n" ++
  "\t\t\t\t\taddress \x7b\n" ++
  "\t\t\t\t\t\taddress1\n" ++
  "\t\t\t\t\t\taddress2\n" ++
  "\t\t\t\t\t\taddress3\n" ++
  "\t\t\t\t\t\tpostalCode\n" ++
  "\t\t\t\t\t\tcity\n" ++
  "\t\t\t\t\t\tcountry\n" ++
  "\t\t\t\t\t\tlatitude\n" ++
  "\t\t\t\t\t\tlongitude\n" ++
  "\t\t\t\t\t\x7d\n" ++
  "\t\t\t\t\tsize\n" ++
  "\t\t\t\t\tmainFuseSize\n" ++
  "\t\t\t\t\tnumberOfResidents\n" ++
  "\t\t\t\t\tprimaryHeatingSource\n" ++
  "\t\t\t\t\thasVentilationSystem\n" ++
  "\t\t\t\t\x7d\n" ++
  "\t\t\t\x7d\n" ++
  "\t\t\x7d"

def GetHomeById.template : String :=
  "\n" ++
  "\t\tquery \x7b\n" ++
  "\t\t\tviewer \x7b\n" ++
  "\t\t\t\thome(id:\"%s\") \x7b\n" ++
  "\t\t\t\t\tid\n" ++
  "\t\t\t\t\tappNickname\n" ++
  "      \t\t\t\tmeteringPointData\x7b\n" ++
  "        \t\t\t\tconsumptionEan\n" ++
  "      \t\t\t\t\x7d\n" ++
  "\t\t\t\t\tfeatures \x7b\n" ++
  "\t\t\t\t\t\trealTimeConsumptionEnabled\n" ++
  "\t\t\t\t\t\x7d\n" ++
  "\t\t\t\t\taddress \x7b\n" ++
  "\t\t\t\t\t\taddress1\n" ++
  "\t\t\t\t\t\taddress2\n" ++
  "\t\t\t\t\t\taddress3\n" ++
  "\t\t\t\t\t\tpostalCode\n" ++
  "\t\t\t\t\t\tcity\n" ++
  "\t\t\t\t\t\tcountry\n" ++
  "\t\t\t\t\t\tlatitude\n" ++
  "\t\t\t\t\t\tlongitude\n" ++
  "\t\t\t\t\t\x7d\n" ++
  "\t\t\t\t\tsize\n" ++
  "\t\t\t\t\tmainFuseSize\n" ++
  "\t\t\t\t\tnumberOfResidents\n" ++
  "\t\t\t\t\tprimaryHeatingSource\n" ++
  "\t\t\t\t\thasVentilationSystem\n" ++
  "\t\t\t\t\x7d\n" ++
  "\t\t\t\x7d\n" ++
  "\t\t\x7d"

def GetCurrentPrice.template : String :=
  "\n" ++
  "\t\tquery \x7b\n" ++
  "\t\t\tviewer \x7b\n" ++
  "\t\t\t\thome(id:\"%s\")  \x7b\n" ++
  "\t\t\t\t\tcurrentSubscription \x7b\n" ++
  "\t\t\t\t\t\tpriceInfo \x7b\n" ++
  "\t\t\t\t\t\t\tcurrent \x7b\n" ++
  "\t\t\t\t\t\t\t\tlevel\n" ++
  "\t\t\t\t\t\t\t\ttotal\n" ++
  "\t\t\t\t\t\t\t\tenergy\n" ++
  "\t\t\t\t\t\t\t\ttax\n" ++
  "\t\t\t\t\t\t\t\tcurrency\n" ++
  "\t\t\t\t\t\t\t\tstartsAt\n" ++
  "\t\t\t\t\t\t\t\x7d\n" ++
  "\t\t\t\t\t\t\x7d\n" ++
  "\t\t\t\t\t\x7d\n" ++
  "\t\t\t\t\x7d\n" ++
  "\t\t\t\x7d\n" ++
  "\t\t\x7d"

def GetCurrentPriceRating.template : String :=
  "\n" ++
  "\t\tquery \x7b\n" ++
  "\t\t\tviewer \x7b\n" ++
  "\t\t\t\thome(id:\"%s\")  \x7b\n" ++
  "\t\t\t\t\tcurrentSubscription \x7b\n" ++
  "\t\t\t\t\t\tpriceRating \x7b\n" ++
  "\t\t\t\t\t\t\tthresholdPercentages \x7b\n" ++
  "\t\t\t\t\t\t\t\thigh\n" ++
  "\t\t\t\t\t\t\t\tlow\n" ++
  "\t\t\t\t\t\t\t\x7d\n" ++
  "\t\t\t\t\t\t\thourly \x7b\n" ++
  "\t\t\t\t\t\t\t\tminEnergy\n" ++
  "\t\t\t\t\t\t\t\tmaxEnergy\n" ++
  "\t\t\t\t\t\t\t\tminTotal\n" ++
  "\t\t\t\t\t\t\t\tcurrency\n" ++
  "\t\t\t\t\t\t\t\tentries \x7b\n" ++
  "\t\t\t\t\t\t\t\t\ttime\n" ++
  "\t\t\t\t\t\t\t\t\tenergy\n" ++
  "\t\t\t\t\t\t\t\t\ttotal\n" ++
  "\t\t\t\t\t\t\t\t\ttax\n" ++
  "\t\t\t\t\t\t\t\t\tdifference\n" ++
  "\t\t\t\t\t\t\t\t\tlevel\n" ++
  "\t\t\t\t\t\t\t\t\x7d\n" ++
  "\t\t\t\t\t\t\t\x7d\n" ++
  "\t\t\t\t\t\t\tdaily \x7b\n" ++
  "\t\t\t\t\t\t\t\tminEnergy\n" ++
  "\t\t\t\t\t\t\t\tmaxEnergy\n" ++
  "\t\t\t\t\t\t\t\tminTotal\n" ++
  "\t\t\t\t\t\t\t\tcurrency\n" ++
  "\t\t\t\t\t\t\t\tentries \x7b\n" ++
  "\t\t\t\t\t\t\t\t\ttime\n" ++
  "\t\t\t\t\t\t\t\t\tenergy\n" ++
  "\t\t\t\t\t\t\t\t\ttotal\n" ++
  "\t\t\t\t\t\t\t\t\ttax\n" ++
  "\t\t\t\t\t\t\t\t\tdifference\n" ++
  "\t\t\t\t\t\t\t\t\tlevel\n" ++
  "\t\t\t\t\t\t\t\t\x7d\n" ++
  "\t\t\t\t\t\t\t\x7d\n" ++
  "\t\t\t\t\t\t\tmonthly \x7b\n" ++
  "\t\t\t\t\t\t\t\tminEnergy\n" ++
  "\t\t\t\t\t\t\t\tmaxEnergy\n" ++
  "\t\t\t\t\t\t\t\tminTotal\n" ++
  "\t\t\t\t\t\t\t\tcurrency\n" ++
  "\t\t\t\t\t\t\t\tentries \x7b\n" ++
  "\t\t\t\t\t\t\t\t\ttime\n" ++
  "\t\t\t\t\t\t\t\t\tenergy\n" ++
  "\t\t\t\t\t\t\t\t\ttotal\n" ++
  "\t\t\t\t\t\t\t\t\ttax\n" ++
  "\t\t\t\t\t\t\t\t\tdifference\n" ++
  "\t\t\t\t\t\t\t\t\tlevel\n" ++
  "\t\t\t\t\t\t\t\t\x7d\n" ++
  "\t\t\t\t\t\t\t\x7d\n" ++
  "\t\t\t\t\t\t\x7d\n" ++
  "\t\t\t\t\t\x7d\n" ++
  "\t\t\t\t\x7d\n" ++
  "\t\t\t\x7d\n" ++
  "\t\t\x7d"

def GetTomorrowsPrice.template : String :=
  "\n" ++
  "\t\tquery \x7b\n" ++
  "\t\t\tviewer \x7b\n" ++
  "\t\t\t\thome(id:\"%s\")  \x7b\n" ++
  "\t\t\t\t\tcurrentSubscription \x7b\n" ++
  "\t\t\t\t\t\tpriceInfo \x7b\n" ++
  "\t\t\t\t\t\t\ttomorrow \x7b\n" ++
  "\t\t\t\t\t\t\t\tlevel\n" ++
  "\t\t\t\t\t\t\t\ttotal\n" ++
  "\t\t\t\t\t\t\t\tenergy\n" ++
  "\t\t\t\t\t\t\t\ttax\n" ++
  "\t\t\t\t\t\t\t\tcurrency\n" ++
  "\t\t\t\t\t\t\t\tstartsAt\n" ++
  "\t\t\t\t\t\t\t\x7d\n" ++
  "\t\t\t\t\t\t\x7d\n" ++
  "\t\t\t\t\t\x7d\n" ++
  "\t\t\t\t\x7d\n" ++
  "\t\t\t\x7d\n" ++
  "\t\t\x7d"

def GetPriceInfo.template : String :=
  "\n" ++
  "\t\tquery \x7b\n" ++
  "\t\t\tviewer \x7b\n" ++
  "\t\t\t\thome(id:\"%s\")  \x7b\n" ++
  "\t\t\t\t\tcurrentSubscription \x7b\n" ++
  "\t\t\t\t\t\tpriceInfo \x7b\n" ++
  "\t\t\t\t\t\t\tcurrent \x7b\n" ++
  "\t\t\t\t\t\t\t\tlevel\n" ++
  "\t\t\t\t\t\t\t\ttotal\n" ++
  "\t\t\t\t\t\t\t\tenergy\n" ++
  "\t\t\t\t\t\t\t\ttax\n" ++
  "\t\t\t\t\t\t\t\tcurrency\n" ++
  "\t\t\t\t\t\t\t\tstartsAt\n" ++
  "\t\t\t\t\t\t\t\x7d\n" ++
  "\t\t\t\t\t\t\ttoday \x7b\n" ++
  "\t\t\t\t\t\t\t\tlevel\n" ++
  "\t\t\t\t\t\t\t\ttotal\n" ++
  "\t\t\t\t\t\t\t\tenergy\n" ++
  "\t\t\t\t\t\t\t\ttax\n" ++
  "\t\t\t\t\t\t\t\tcurrency\n" ++
  "\t\t\t\t\t\t\t\tstartsAt\n" ++
  "\t\t\t\t\t\t\t\x7d\n" ++
  "\t\t\t\t\t\t\ttomorrow \x7b\n" ++
  "\t\t\t\t\t\t\t\tlevel\n" ++
  "\t\t\t\t\t\t\t\ttotal\n" ++
  "\t\t\t\t\t\t\t\tenergy\n" ++
  "\t\t\t\t\t\t\t\ttax\n" ++
  "\t\t\t\t\t\t\t\tcurrency\n" ++
  "\t\t\t\t\t\t\t\tstartsAt\n" ++
  "\t\t\t\t\t\t\t\x7d\n" ++
  "\t\t\t\t\t\t\x7d\n" ++
  "\t\t\t\t\t\x7d\n" ++
  "\t\t\t\t\x7d\n" ++
  "\t\t\t\x7d\n" ++
  "\t\t\x7d"

def GetConsumption.template : String :=
  "\n" ++
  "\t\tquery \x7b\n" ++
  "\t\t\tviewer \x7b\n" ++
  "\t\t\t\thome(id:\"%s\")  \x7b\n" ++
  "\t\t\t\t\tconsumption(resolution: %s, last: %s) \x7b\n" ++
  "\t\t\t\t\t\tnodes \x7b\n" ++
  "\t\t\t\t\t\t\tfrom\n" ++
  "\t\t\t\t\t\t\tto\n" ++
  "\t\t\t\t\t\t\tcost\n" ++
  "\t\t\t\t\t\t\tunitPrice\n" ++
  "\t\t\t\t\t\t\tunitPriceVAT\n" ++
  "\t\t\t\t\t\t\tcurrency\n" ++
  "\t\t\t\t\t\t\tconsumption\n" ++
  "\t\t\t\t\t\t\tconsumptionUnit\n" ++
  "\t\t\t\t\t\t\x7d\n" ++
  "\t\t\t\t\t\x7d\n" ++
  "\t\t\t\t\x7d\n" ++
  "\t\t\t\x7d\n" ++
  "\t\t\x7d"

/-! ## Getters (`homes.go` lines 157-455) -/

/-- GetHomes get a list of homes with information -/
def GetHomes (t : Client) : Outcome (Slice Home) :=
  let req := NewRequest GetHomes.template
  let req := { req with Header := req.Header.Set "Cache-Control" "no-cache" }
  let req := { req with Header := req.Header.Set "Authorization" ("Bearer " ++ t.Token) }
  let result : HomesResponse := {}
  match t.gqlClient.RunHomes req result with
  | (_, some err) => { value := Slice.nil, err := some err, trace := [Event.run req, Event.logError err] }
  | (result, none) => { value := result.Viewer.Homes, err := none, trace := [Event.run req] }

/-- GetHomeById get a home with information -/
def GetHomeById (t : Client) (homeId : String) : Outcome Home :=
  let req := NewRequest (Sprintf GetHomeById.template [homeId])
  let req := { req with Header := req.Header.Set "Cache-Control" "no-cache" }
  let req := { req with Header := req.Header.Set "Authorization" ("Bearer " ++ t.Token) }
  let result : HomeResponse := {}
  match t.gqlClient.RunHome req result with
  | (_, some err) => { value := {}, err := some err, trace := [Event.run req, Event.logError err] }
  | (result, none) => { value := result.Viewer.Home, err := none, trace := [Event.run req] }

def GetCurrentPrice (t : Client) (homeId : String) : Outcome Price :=
  let req := NewRequest (Sprintf GetCurrentPrice.template [homeId])
  let req := { req with Header := req.Header.Set "Cache-Control" "no-cache" }
  let req := { req with Header := req.Header.Set "Authorization" ("Bearer " ++ t.Token) }
  let result : HomeResponse := {}
  match t.gqlClient.RunHome req result with
  | (_, some err) => { value := {}, err := some err, trace := [Event.run req, Event.logError err] }
  | (result, none) =>
    { value := result.Viewer.Home.CurrentSubscription.PriceInfo.Current, err := none,
      trace := [Event.run req] }

def GetCurrentPriceRating (t : Client) (homeId : String) : Outcome PriceRating :=
  let req := NewRequest (Sprintf GetCurrentPriceRating.template [homeId])
  let req := { req with Header := req.Header.Set "Cache-Control" "no-cache" }
  let req := { req with Header := req.Header.Set "Authorization" ("Bearer " ++ t.Token) }
  let result : HomeResponse := {}
  match t.gqlClient.RunHome req result with
  | (_, some err) => { value := {}, err := some err, trace := [Event.run req, Event.logError err] }
  | (result, none) =>
    { value := result.Viewer.Home.CurrentSubscription.PriceRating, err := none,
      trace := [Event.run req] }

def GetTomorrowsPrice (t : Client) (homeId : String) : Outcome (Slice Price) :=
  let req := NewRequest (Sprintf GetTomorrowsPrice.template [homeId])
  let req := { req with Header := req.Header.Set "Cache-Control" "no-cache" }
  let req := { req with Header := req.Header.Set "Authorization" ("Bearer " ++ t.Token) }
  let result : HomeResponse := {}
  match t.gqlClient.RunHome req result with
  | (_, some err) =>
    { value := Slice.lit [], err := some err, trace := [Event.run req, Event.logError err] }
  | (result, none) =>
    { value := result.Viewer.Home.CurrentSubscription.PriceInfo.Tomorrow, err := none,
      trace := [Event.run req] }

def GetPriceInfo (t : Client) (homeId : String) : Outcome PriceInfo :=
  let req := NewRequest (Sprintf GetPriceInfo.template [homeId])
  let req := { req with Header := req.Header.Set "Cache-Control" "no-cache" }
  let req := { req with Header := req.Header.Set "Authorization" ("Bearer " ++ t.Token) }
  let result : HomeResponse := {}
  match t.gqlClient.RunHome req result with
  | (_, some err) => { value := {}, err := some err, trace := [Event.run req, Event.logError err] }
  | (result, none) =>
    { value := result.Viewer.Home.CurrentSubscription.PriceInfo, err := none,
      trace := [Event.run req] }

def GetConsumption (t : Client) (homeId : String) (resolution : PriceResolution) (last : Int) :
    Outcome (Slice Consumption) :=
  let req := NewRequest
    (Sprintf GetConsumption.template [homeId, PriceResolution.String resolution, Itoa last])
  let req := { req with Header := req.Header.Set "Cache-Control" "no-cache" }
  let req := { req with Header := req.Header.Set "Authorization" ("Bearer " ++ t.Token) }
  let result : HomeResponse := {}
  match t.gqlClient.RunHome req result with
  | (_, some err) =>
    { value := Slice.lit [], err := some err, trace := [Event.run req, Event.logError err] }
  | (result, none) =>
    { value := result.Viewer.Home.Consumption.Nodes, err := none, trace := [Event.run req] }

/-! ## Specification vocabulary -/

/-- The request a getter hands to the transport for a query text: a fresh
request with the cache directive and the bearer authorization set, in the
order the source sets them. -/
def sent (t : Client) (q : String) : Request :=
  { q := q,
    Header := Header.Set (Header.Set [] "Cache-Control" "no-cache")
      "Authorization" ("Bearer " ++ t.Token) }

/-- Transport calls recorded in a trace, in order. -/
def runs : List Event → List Request
  | [] => []
  | Event.run req :: rest => req :: runs rest
  | Event.logError _ :: rest => runs rest

/-- The text `pat` occurs somewhere in `s`. -/
def occursIn (pat s : String) : Prop := pat.data <:+: s.data

instance (pat s : String) : Decidable (occursIn pat s) := by
  unfold occursIn; infer_instance

/-- Number of positions of `s` at which an occurrence of `pat` starts. -/
def occurrences (pat : List Char) : List Char → Nat
  | [] => if pat = [] then 1 else 0
  | c :: s => (if pat.isPrefixOf (c :: s) then 1 else 0) + occurrences pat s

/-- Text shared by the six home-scoped templates up to the opening quote of the
identifier argument. -/
def homeHead : String := "\n\t\tquery \x7b\n\t\t\tviewer \x7b\n\t\t\t\thome(id:"

/-- What follows the quoted `%s` of the identifier in a home-scoped template. -/
def afterId (template : String) : String :=
  String.mk (template.data.drop (homeHead.length + 4))

/-- The double-quote character. -/
def dquote : Char := Char.ofNat 34

/-- The backslash character. -/
def backslash : Char := Char.ofNat 92

/-- Value of a decimal digit character. -/
def digitValue (c : Char) : Nat := c.toNat - 48

/-- The natural number a string of decimal digits denotes, most significant
digit first. -/
def decimalNat (s : List Char) : Nat :=
  s.foldl (fun acc c => 10 * acc + digitValue c) 0

/-- The integer a decimal numeral with an optional leading minus sign denotes. -/
def decimalInt (s : List Char) : Int :=
  match s with
  | [] => 0
  | c :: ds => if c = '-' then -(decimalNat ds : Int) else (decimalNat (c :: ds) : Int)

/-- A nonempty string of decimal digits without a superfluous leading zero. -/
def canonicalDigits (s : List Char) : Bool :=
  match s with
  | [] => false
  | d :: tl => (d :: tl).all Char.isDigit && (d != '0' || tl.isEmpty)

/-- A canonical decimal numeral: canonical digits, or a minus sign followed by
the canonical digits of a nonzero number. -/
def canonicalDecimal (s : List Char) : Bool :=
  match s with
  | [] => false
  | c :: ds => if c = '-' then canonicalDigits ds && ds != ['0'] else canonicalDigits (c :: ds)

/-- Text of the consumption template between the identifier literal and the
resolution operand. -/
def GetConsumption.beforeResolution : String :=
  ")  \x7b\n\t\t\t\t\tconsumption(resolution: "

/-- Text of the consumption template between the resolution and count operands. -/
def GetConsumption.beforeLast : String := ", last: "

/-- Text of the consumption template after the count operand. -/
def GetConsumption.afterLast : String :=
  ") \x7b\n\t\t\t\t\t\tnodes \x7b\n\t\t\t\t\t\t\tfrom\n\t\t\t\t\t\t\tto\n\t\t\t\t\t\t\tcost\n" ++
  "\t\t\t\t\t\t\tunitPrice\n\t\t\t\t\t\t\tunitPriceVAT\n\t\t\t\t\t\t\tcurrency\n" ++
  "\t\t\t\t\t\t\tconsumption\n\t\t\t\t\t\t\tconsumptionUnit\n\t\t\t\t\t\t\x7d\n" ++
  "\t\t\t\t\t\x7d\n\t\t\t\t\x7d\n\t\t\t\x7d\n\t\t\x7d"

/-- The document `GetConsumption` formats for its three operands. -/
def GetConsumption.document (homeId : String) (resolution : PriceResolution) (last : Int) :
    String :=
  Sprintf GetConsumption.template [homeId, PriceResolution.String resolution, Itoa last]

/-! ### Fixtures -/

/-- A client whose transport ignores the request and answers as scripted. -/
def scriptedClient (token : String) (homes : HomesResponse × Option Error)
    (home : HomeResponse × Option Error) : Client :=
  { Token := token,
    gqlClient := { RunHomes := fun _ _ => homes, RunHome := fun _ _ => home } }

/-- The instant 2024-01-01T00:00:00Z: 738885 days after 0001-01-01. -/
def newYear2024 : Time := { sec := 738885 * 86400, nsec := 0 }

/-- The current price of the spec's sample envelope. The costs are the doubles
nearest to 1.23, 1.0 and 0.23. -/
def samplePrice : Price :=
  { Level := "NORMAL",
    Total := { bits := 0x3FF3AE147AE147AE },
    Energy := { bits := 0x3FF0000000000000 },
    Tax := { bits := 0x3FCD70A3D70A3D71 },
    Currency := "NOK",
    StartsAt := newYear2024 }

/-- The spec's sample envelope as decoded: only `current` is present. -/
def sampleEnvelope : HomeResponse :=
  { Viewer := { Home := { CurrentSubscription := { PriceInfo := { Current := samplePrice } } } } }

/-- A richer decoded envelope exercising every home-scoped sub-path. -/
def fullEnvelope : HomeResponse :=
  { Viewer := { Home :=
    { ID := "home-1",
      AppNickname := "Cabin",
      CurrentSubscription :=
        { PriceInfo :=
            { Current := samplePrice,
              Today := Slice.lit [samplePrice],
              Tomorrow := Slice.lit [{ samplePrice with Level := "CHEAP" }, samplePrice] },
          PriceRating := { Hourly := { Currency := "NOK" } } },
      Consumption := { Nodes := Slice.lit [{ ConsumptionUnit := "kWh", Currency := "NOK" }] } } } }

/-- A decoded list-homes envelope with two homes. -/
def twoHomes : HomesResponse :=
  { Viewer := { Homes := Slice.lit [{ ID := "home-1" }, { ID := "home-2", Size := 120 }] } }

/-- A client whose transport fails every call with the same error. -/
def failingClient : Client :=
  scriptedClient "token" ({}, some { text := "timeout" }) ({}, some { text := "timeout" })

/-- A client whose transport succeeds and decodes the fixture envelopes. -/
def okClient : Client := scriptedClient "token" (twoHomes, none) (fullEnvelope, none)

/-- The outcome is that of one transport call: the trace holds exactly one
call, its request carries the query text, the cache directive and the bearer
authorization of the client's token, the error returned is the one `run`
returns when applied to that request and the zero result variable, and the
value returned is `extract` of what `run` wrote there when it returns no
error and `onError` when it returns one. -/
def dispatchedOnce {ρ α : Type} (t : Client) (q : String)
    (run : Request → ρ → ρ × Option Error) (zero : ρ) (extract : ρ → α) (onError : α)
    (out : Outcome α) : Prop :=
  ∃ req, runs out.trace = [req]
    ∧ req.q = q
    ∧ Header.values req.Header "Cache-Control" = some ["no-cache"]
    ∧ Header.values req.Header "Authorization" = some ["Bearer " ++ t.Token]
    ∧ out.err = (run req zero).2
    ∧ out.value = (match (run req zero).2 with
        | none => extract (run req zero).1
        | some _ => onError)

/-- Boolean test for `occursIn`, evaluated position by position. -/
def occursInB (pat : List Char) : List Char → Bool
  | [] => pat.isEmpty
  | c :: s => pat.isPrefixOf (c :: s) || occursInB pat s

/-! ## Lemmas on the library model -/

theorem sprintfAux_cons (c : Char) (s : List Char) (args : List String) (hc : c ≠ '%') :
    sprintfAux (c :: s) args = c :: sprintfAux s args := by
  cases s with
  | nil => simp [sprintfAux, hc]
  | cons d rest => simp [sprintfAux, hc]

theorem sprintfAux_literal (pre rest : List Char) (args : List String)
    (h : '%' ∉ pre) : sprintfAux (pre ++ rest) args = pre ++ sprintfAux rest args := by
  induction pre with
  | nil => rfl
  | cons c pre ih =>
    have hc : c ≠ '%' := fun e => h (by simp [e])
    have hp : '%' ∉ pre := fun e => h (List.mem_cons_of_mem _ e)
    rw [List.cons_append, sprintfAux_cons _ _ _ hc, ih hp]
    rfl

theorem sprintfAux_verb (rest : List Char) (a : String) (args : List String) :
    sprintfAux ('%' :: 's' :: rest) (a :: args) = a.data ++ sprintfAux rest args := by
  simp [sprintfAux]

theorem sprintfAux_plain (s : List Char) (args : List String) (h : '%' ∉ s) :
    sprintfAux s args = s := by
  have := sprintfAux_literal s [] args h
  simpa [sprintfAux] using this

theorem Sprintf_data (format : String) (args : List String) :
    (Sprintf format args).data = sprintfAux format.data args := rfl

/-! ## Lemmas on occurrences of a text -/

theorem prefix_of_prefix_append_cons {x : Char} :
    ∀ (pat a b : List Char), x ∉ pat → pat <+: a ++ x :: b → pat <+: a
  | [], a, _, _, _ => List.nil_prefix
  | p :: ps, [], b, hx, h => by
    rw [List.nil_append, List.cons_prefix_cons] at h
    exact absurd (by simp [h.1]) hx
  | p :: ps, c :: a, b, hx, h => by
    rw [List.cons_append, List.cons_prefix_cons] at h
    rw [List.cons_prefix_cons]
    exact ⟨h.1, prefix_of_prefix_append_cons ps a b
      (fun e => hx (List.mem_cons_of_mem _ e)) h.2⟩

theorem infix_append_cons_iff {x : Char} (pat a b : List Char) (hx : x ∉ pat) :
    pat <:+: a ++ x :: b ↔ pat <:+: a ∨ pat <:+: b := by
  constructor
  · intro h
    induction a with
    | nil =>
      rw [List.nil_append, List.infix_cons_iff] at h
      rcases h with h | h
      · exact Or.inl (prefix_of_prefix_append_cons pat [] b hx h).isInfix
      · exact Or.inr h
    | cons c a ih =>
      rw [List.cons_append, List.infix_cons_iff] at h
      rcases h with h | h
      · exact Or.inl (prefix_of_prefix_append_cons pat (c :: a) b hx h).isInfix
      · rcases ih h with h | h
        · exact Or.inl (List.infix_cons h)
        · exact Or.inr h
  · rintro (h | h)
    · exact h.trans (List.infix_append' [] a (x :: b) |>.trans (by simp))
    · exact h.trans ((List.infix_cons (List.infix_refl b)).trans
        (List.suffix_append a (x :: b)).isInfix)

theorem infix_append_of_disjoint (pat m b : List Char) (hne : pat ≠ [])
    (hm : ∀ c ∈ m, c ∉ pat) : pat <:+: m ++ b ↔ pat <:+: b := by
  induction m with
  | nil => simp
  | cons c m ih =>
    have h1 := infix_append_cons_iff pat [] (m ++ b) (hm c (by simp))
    rw [List.nil_append] at h1
    rw [List.cons_append, h1, ih (fun d hd => hm d (List.mem_cons_of_mem _ hd))]
    constructor
    · rintro (h | h)
      · exact absurd (List.eq_nil_of_infix_nil h) hne
      · exact h
    · exact Or.inr

theorem occurrences_skip (q : Char) (p : List Char) :
    ∀ (pre s : List Char), q ∉ pre →
      occurrences (q :: p) (pre ++ s) = occurrences (q :: p) s
  | [], _, _ => rfl
  | c :: pre, s, h => by
    have hc : q ≠ c := fun e => h (by simp [e])
    have hp : q ∉ pre := fun e => h (List.mem_cons_of_mem _ e)
    simp [occurrences, List.isPrefixOf, hc, occurrences_skip q p pre s hp]

theorem occurrences_eq_zero (q : Char) (pat : List Char) :
    ∀ s : List Char, s.count q < pat.count q → occurrences pat s = 0
  | [], h => by
    have : pat ≠ [] := by
      rintro rfl
      simp at h
    simp [occurrences, this]
  | c :: s, h => by
    have hnot : ¬ pat <+: c :: s := fun hp =>
      absurd (hp.sublist.count_le q) (Nat.not_le.mpr h)
    have hs : s.count q < pat.count q :=
      Nat.lt_of_le_of_lt ((List.sublist_cons_self c s).count_le q) h
    have hb : pat.isPrefixOf (c :: s) = false := by
      rw [Bool.eq_false_iff]
      intro e
      exact hnot (List.isPrefixOf_iff_prefix.mp e)
    simp [occurrences, hb, occurrences_eq_zero q pat s hs]

/-- A text delimited by a character that occurs nowhere else occurs once. -/
theorem occurrences_delimited (q : Char) (pre body post : List Char)
    (hpre : q ∉ pre) (hbody : q ∉ body) (hpost : q ∉ post) :
    occurrences (q :: body ++ [q]) (pre ++ q :: body ++ q :: post) = 1 := by
  have e1 : pre ++ q :: body ++ q :: post = pre ++ (q :: (body ++ q :: post)) := by simp
  have e2 : q :: body ++ [q] = q :: (body ++ [q]) := rfl
  rw [e1, e2, occurrences_skip q _ pre _ hpre]
  have hpfx : (q :: (body ++ [q])).isPrefixOf (q :: (body ++ q :: post)) = true := by
    rw [List.isPrefixOf_iff_prefix]
    exact ⟨post, by simp⟩
  have hz : occurrences (q :: (body ++ [q])) (body ++ q :: post) = 0 := by
    apply occurrences_eq_zero q
    simp [List.count_append, List.count_cons, List.count_eq_zero_of_not_mem hbody,
      List.count_eq_zero_of_not_mem hpost]
  rw [occurrences, hpfx, hz]
  rfl

/-! ## Lemmas on decimal rendering -/

theorem digitChar_mem (n : Nat) (h : n < 10) : Nat.digitChar n ∈ "0123456789".data := by
  interval_cases n <;> decide

theorem toDigitsCore_mem (fuel : Nat) :
    ∀ (n : Nat) (ds : List Char), (∀ c ∈ ds, c ∈ "0123456789".data) →
      ∀ c ∈ Nat.toDigitsCore 10 fuel n ds, c ∈ "0123456789".data := by
  induction fuel with
  | zero => intro n ds h c hc; exact h c (by simpa [Nat.toDigitsCore] using hc)
  | succ fuel ih =>
    intro n ds h c hc
    have hd : Nat.digitChar (n % 10) ∈ "0123456789".data :=
      digitChar_mem _ (Nat.mod_lt _ (by decide))
    have hds : ∀ c ∈ Nat.digitChar (n % 10) :: ds, c ∈ "0123456789".data := by
      intro c hc
      rcases List.mem_cons.mp hc with rfl | hc
      · exact hd
      · exact h c hc
    rw [Nat.toDigitsCore] at hc
    by_cases h0 : n / 10 = 0
    · rw [if_pos h0] at hc
      exact hds c hc
    · rw [if_neg h0] at hc
      exact ih _ _ hds c hc

theorem Itoa_chars (i : Int) : ∀ c ∈ (Itoa i).data, c ∈ "-0123456789".data := by
  have key : ∀ n : Nat, ∀ c ∈ (Nat.repr n).data, c ∈ "0123456789".data := by
    intro n c hc
    exact toDigitsCore_mem _ n [] (by simp) c (by simpa [Nat.repr, Nat.toDigits] using hc)
  intro c hc
  cases i with
  | ofNat n => exact List.mem_cons_of_mem _ (key n c hc)
  | negSucc n =>
    have hc2 : c ∈ '-' :: (Nat.repr (n + 1)).data := by simpa [Itoa] using hc
    rcases List.mem_cons.mp hc2 with rfl | h
    · decide
    · exact List.mem_cons_of_mem _ (key _ c h)

/-! ## Lemmas on the value of a decimal rendering -/

theorem digitValue_digitChar (n : Nat) (h : n < 10) : digitValue (Nat.digitChar n) = n := by
  interval_cases n <;> rfl

theorem digitChar_ne_zero (n : Nat) (h : n < 10) (h0 : 0 < n) :
    Nat.digitChar n ∈ "123456789".data := by
  interval_cases n <;> decide

theorem toDigitsCore_value (fuel : Nat) :
    ∀ (n : Nat) (ds : List Char), n < fuel →
      List.foldl (fun acc c => 10 * acc + digitValue c) 0 (Nat.toDigitsCore 10 fuel n ds)
        = List.foldl (fun acc c => 10 * acc + digitValue c) n ds := by
  induction fuel with
  | zero => intro n ds h; exact absurd h (Nat.not_lt_zero n)
  | succ fuel ih =>
    intro n ds h
    have hd : digitValue (Nat.digitChar (n % 10)) = n % 10 :=
      digitValue_digitChar _ (Nat.mod_lt _ (by decide))
    rw [Nat.toDigitsCore]
    by_cases h0 : n / 10 = 0
    · rw [if_pos h0]
      have hn : n % 10 = n := Nat.mod_eq_of_lt (by omega)
      simp only [List.foldl_cons, Nat.mul_zero, Nat.zero_add]
      rw [hd, hn]
    · rw [if_neg h0, ih (n / 10) _ (by omega)]
      have hn : 10 * (n / 10) + n % 10 = n := Nat.div_add_mod n 10
      simp only [List.foldl_cons]
      rw [hd, hn]

theorem toDigitsCore_head (fuel : Nat) :
    ∀ (n : Nat) (ds : List Char), n < fuel → 0 < n →
      ∃ d tl, Nat.toDigitsCore 10 fuel n ds = d :: tl ∧ d ∈ "123456789".data := by
  induction fuel with
  | zero => intro n ds h; exact absurd h (Nat.not_lt_zero n)
  | succ fuel ih =>
    intro n ds h hpos
    rw [Nat.toDigitsCore]
    by_cases h0 : n / 10 = 0
    · rw [if_pos h0]
      have hn : n % 10 = n := Nat.mod_eq_of_lt (by omega)
      exact ⟨_, ds, rfl, digitChar_ne_zero _ (Nat.mod_lt _ (by decide)) (by omega)⟩
    · rw [if_neg h0]
      exact ih (n / 10) _ (by omega) (by omega)

theorem repr_data (n : Nat) : (Nat.repr n).data = Nat.toDigitsCore 10 (n + 1) n [] := rfl

theorem decimalNat_repr (n : Nat) : decimalNat (Nat.repr n).data = n := by
  rw [repr_data, decimalNat, toDigitsCore_value _ _ _ (Nat.lt_succ_self n)]
  rfl

theorem isDigit_of_mem : ∀ c ∈ "0123456789".data, c.isDigit = true := by decide

theorem not_minus_of_mem : ∀ c ∈ "0123456789".data, c ≠ '-' := by decide

theorem nonzero_of_mem : ∀ c ∈ "123456789".data, (c != '0') = true ∧ c ≠ '-' := by decide

theorem repr_digits (n : Nat) : (Nat.repr n).data.all Char.isDigit = true := by
  rw [List.all_eq_true]
  intro c hc
  exact isDigit_of_mem c (toDigitsCore_mem _ n [] (by simp) c (by rw [← repr_data]; exact hc))

theorem canonicalDigits_repr_pos (n : Nat) (h : 0 < n) :
    ∃ d tl, (Nat.repr n).data = d :: tl ∧ d ∈ "123456789".data
      ∧ canonicalDigits (d :: tl) = true := by
  obtain ⟨d, tl, he, hd⟩ := toDigitsCore_head (n + 1) n [] (Nat.lt_succ_self n) h
  rw [← repr_data] at he
  refine ⟨d, tl, he, hd, ?_⟩
  have hall := repr_digits n
  rw [he] at hall
  simp only [canonicalDigits, hall, (nonzero_of_mem d hd).1, Bool.true_or, Bool.and_self]

theorem canonicalDecimal_Itoa (i : Int) : canonicalDecimal (Itoa i).data = true := by
  cases i with
  | ofNat n =>
    rcases Nat.eq_zero_or_pos n with rfl | hpos
    · decide
    · obtain ⟨d, tl, he, hd, hc⟩ := canonicalDigits_repr_pos n hpos
      show canonicalDecimal (Nat.repr n).data = true
      rw [he, canonicalDecimal, if_neg (nonzero_of_mem d hd).2, hc]
  | negSucc n =>
    obtain ⟨d, tl, he, hd, hc⟩ := canonicalDigits_repr_pos (n + 1) (Nat.succ_pos n)
    have hne : d ≠ '0' := fun e => by
      have := (nonzero_of_mem d hd).1
      rw [e] at this
      exact absurd this (by decide)
    show canonicalDecimal ('-' :: (Nat.repr (n + 1)).data) = true
    rw [he, canonicalDecimal, if_pos rfl, hc]
    simp [hne]

theorem decimalInt_Itoa (i : Int) : decimalInt (Itoa i).data = i := by
  cases i with
  | ofNat n =>
    have hv := decimalNat_repr n
    show decimalInt (Nat.repr n).data = Int.ofNat n
    rcases hdata : (Nat.repr n).data with _ | ⟨c, ds⟩
    · rw [hdata] at hv
      have h0 : n = 0 := by simpa [decimalNat] using hv.symm
      subst h0
      exact absurd hdata (by decide)
    · have hc : c ≠ '-' := by
        apply not_minus_of_mem
        apply toDigitsCore_mem (n + 1) n [] (by simp)
        rw [← repr_data, hdata]
        exact List.mem_cons_self _ _
      rw [hdata] at hv
      rw [decimalInt, if_neg hc, hv]
      rfl
  | negSucc n =>
    show decimalInt ('-' :: (Nat.repr (n + 1)).data) = Int.negSucc n
    rw [decimalInt, if_pos rfl, decimalNat_repr]
    rfl

theorem Itoa_eq (i : Int) :
    Itoa i = if i < 0 then "-" ++ Nat.repr i.natAbs else Nat.repr i.natAbs := by
  cases i with
  | ofNat n =>
    have : ¬ (Int.ofNat n < 0) := by simp
    rw [if_neg this]
    rfl
  | negSucc n =>
    rw [if_pos (Int.negSucc_lt_zero n)]
    rfl

theorem occursInB_iff (pat : List Char) :
    ∀ s : List Char, occursInB pat s = true ↔ pat <:+: s
  | [] => by simp [occursInB, List.isEmpty_iff]
  | c :: s => by
    rw [occursInB, Bool.or_eq_true, List.isPrefixOf_iff_prefix, occursInB_iff pat s,
      List.infix_cons_iff]

theorem occursIn_of_test (pat s : String) (h : occursInB pat.data s.data = true) :
    occursIn pat s := (occursInB_iff _ _).mp h

theorem not_occursIn_of_test (pat s : String) (h : occursInB pat.data s.data = false) :
    ¬ occursIn pat s := fun hin => by
  rw [(occursInB_iff _ _).mpr hin] at h
  exact Bool.noConfusion h

theorem not_infix_of_test (pat s : List Char) (h : occursInB pat s = false) : ¬ pat <:+: s :=
  fun hin => by
    rw [(occursInB_iff _ _).mpr hin] at h
    exact Bool.noConfusion h

/-! ## The documents the getters format -/

theorem percent_not_mem_homeHead : '%' ∉ homeHead.data ++ [dquote] := by decide

theorem sprintfAux_home (rest : List Char) (a : String) (args : List String) :
    sprintfAux (homeHead.data ++ dquote :: '%' :: 's' :: rest) (a :: args)
      = homeHead.data ++ dquote :: (a.data ++ sprintfAux rest args) := by
  have e : homeHead.data ++ dquote :: '%' :: 's' :: rest
      = (homeHead.data ++ [dquote]) ++ '%' :: 's' :: rest := by simp
  rw [e, sprintfAux_literal _ _ _ percent_not_mem_homeHead, sprintfAux_verb]
  simp

/-- A template with the identifier as its only operand formats to the template
with the identifier in place of the verb. -/
theorem Sprintf_home (template homeId : String)
    (hT : template.data = homeHead.data ++ dquote :: '%' :: 's' :: dquote :: (afterId template).data)
    (hp : '%' ∉ (afterId template).data) :
    Sprintf template [homeId] = homeHead ++ "\"" ++ homeId ++ "\"" ++ afterId template := by
  apply String.ext
  have hq : sprintfAux (dquote :: (afterId template).data) []
      = dquote :: (afterId template).data :=
    sprintfAux_plain _ _ (by
      intro h
      rcases List.mem_cons.mp h with h | h
      · exact absurd h (by decide)
      · exact hp h)
  rw [Sprintf_data, hT, sprintfAux_home, hq]
  simp [String.data_append]
  rfl

theorem GetHomeById_document (homeId : String) :
    Sprintf GetHomeById.template [homeId]
      = homeHead ++ "\"" ++ homeId ++ "\"" ++ afterId GetHomeById.template :=
  Sprintf_home _ _ (by decide) (by decide)

theorem GetCurrentPrice_document (homeId : String) :
    Sprintf GetCurrentPrice.template [homeId]
      = homeHead ++ "\"" ++ homeId ++ "\"" ++ afterId GetCurrentPrice.template :=
  Sprintf_home _ _ (by decide) (by decide)

theorem GetCurrentPriceRating_document (homeId : String) :
    Sprintf GetCurrentPriceRating.template [homeId]
      = homeHead ++ "\"" ++ homeId ++ "\"" ++ afterId GetCurrentPriceRating.template :=
  Sprintf_home _ _ (by decide) (by decide)

theorem GetTomorrowsPrice_document (homeId : String) :
    Sprintf GetTomorrowsPrice.template [homeId]
      = homeHead ++ "\"" ++ homeId ++ "\"" ++ afterId GetTomorrowsPrice.template :=
  Sprintf_home _ _ (by decide) (by decide)

theorem GetPriceInfo_document (homeId : String) :
    Sprintf GetPriceInfo.template [homeId]
      = homeHead ++ "\"" ++ homeId ++ "\"" ++ afterId GetPriceInfo.template :=
  Sprintf_home _ _ (by decide) (by decide)

theorem GetConsumption_template_data :
    GetConsumption.template.data
      = homeHead.data ++ dquote :: '%' :: 's' :: dquote ::
          (GetConsumption.beforeResolution.data ++ '%' :: 's' ::
            (GetConsumption.beforeLast.data ++ '%' :: 's' ::
              GetConsumption.afterLast.data)) := by decide

theorem GetConsumption_document (homeId : String) (resolution : PriceResolution) (last : Int) :
    GetConsumption.document homeId resolution last
      = homeHead ++ "\"" ++ homeId ++ "\"" ++ GetConsumption.beforeResolution
          ++ PriceResolution.String resolution ++ GetConsumption.beforeLast ++ Itoa last
          ++ GetConsumption.afterLast := by
  apply String.ext
  have h1 : '%' ∉ dquote :: GetConsumption.beforeResolution.data := by decide
  have h2 : '%' ∉ GetConsumption.beforeLast.data := by decide
  have h3 : '%' ∉ GetConsumption.afterLast.data := by decide
  have e : dquote :: (GetConsumption.beforeResolution.data ++ '%' :: 's' ::
            (GetConsumption.beforeLast.data ++ '%' :: 's' :: GetConsumption.afterLast.data))
      = (dquote :: GetConsumption.beforeResolution.data) ++ '%' :: 's' ::
            (GetConsumption.beforeLast.data ++ '%' :: 's' :: GetConsumption.afterLast.data) := by
    simp
  rw [GetConsumption.document, Sprintf_data, GetConsumption_template_data, sprintfAux_home, e,
    sprintfAux_literal _ _ _ h1, sprintfAux_verb, sprintfAux_literal _ _ _ h2, sprintfAux_verb,
    sprintfAux_plain _ _ h3]
  simp [String.data_append]
  rfl

/-! ## The two outcomes of each getter -/

theorem GetHomes_fail (t : Client) (w : HomesResponse) (e : Error)
    (h : t.gqlClient.RunHomes (sent t GetHomes.template) {} = (w, some e)) :
    GetHomes t =
      { value := Slice.nil, err := some e,
        trace := [Event.run (sent t GetHomes.template), Event.logError e] } := by
  have h2 := h
  simp only [sent, NewRequest, GetConsumption.document] at h2
  simp only [GetHomes, NewRequest, h2]
  rfl

theorem GetHomes_ok (t : Client) (w : HomesResponse)
    (h : t.gqlClient.RunHomes (sent t GetHomes.template) {} = (w, none)) :
    GetHomes t =
      { value := w.Viewer.Homes, err := none,
        trace := [Event.run (sent t GetHomes.template)] } := by
  have h2 := h
  simp only [sent, NewRequest, GetConsumption.document] at h2
  simp only [GetHomes, NewRequest, h2]
  rfl

theorem GetHomeById_fail (t : Client) (homeId : String) (w : HomeResponse) (e : Error)
    (h : t.gqlClient.RunHome (sent t (Sprintf GetHomeById.template [homeId])) {} = (w, some e)) :
    GetHomeById t homeId =
      { value := {}, err := some e,
        trace := [Event.run (sent t (Sprintf GetHomeById.template [homeId])), Event.logError e] } := by
  have h2 := h
  simp only [sent, NewRequest, GetConsumption.document] at h2
  simp only [GetHomeById, NewRequest, h2]
  rfl

theorem GetHomeById_ok (t : Client) (homeId : String) (w : HomeResponse)
    (h : t.gqlClient.RunHome (sent t (Sprintf GetHomeById.template [homeId])) {} = (w, none)) :
    GetHomeById t homeId =
      { value := w.Viewer.Home, err := none,
        trace := [Event.run (sent t (Sprintf GetHomeById.template [homeId]))] } := by
  have h2 := h
  simp only [sent, NewRequest, GetConsumption.document] at h2
  simp only [GetHomeById, NewRequest, h2]
  rfl

theorem GetCurrentPrice_fail (t : Client) (homeId : String) (w : HomeResponse) (e : Error)
    (h : t.gqlClient.RunHome (sent t (Sprintf GetCurrentPrice.template [homeId])) {} = (w, some e)) :
    GetCurrentPrice t homeId =
      { value := {}, err := some e,
        trace := [Event.run (sent t (Sprintf GetCurrentPrice.template [homeId])), Event.logError e] } := by
  have h2 := h
  simp only [sent, NewRequest, GetConsumption.document] at h2
  simp only [GetCurrentPrice, NewRequest, h2]
  rfl

theorem GetCurrentPrice_ok (t : Client) (homeId : String) (w : HomeResponse)
    (h : t.gqlClient.RunHome (sent t (Sprintf GetCurrentPrice.template [homeId])) {} = (w, none)) :
    GetCurrentPrice t homeId =
      { value := w.Viewer.Home.CurrentSubscription.PriceInfo.Current, err := none,
        trace := [Event.run (sent t (Sprintf GetCurrentPrice.template [homeId]))] } := by
  have h2 := h
  simp only [sent, NewRequest, GetConsumption.document] at h2
  simp only [GetCurrentPrice, NewRequest, h2]
  rfl

theorem GetCurrentPriceRating_fail (t : Client) (homeId : String) (w : HomeResponse) (e : Error)
    (h : t.gqlClient.RunHome (sent t (Sprintf GetCurrentPriceRating.template [homeId])) {} = (w, some e)) :
    GetCurrentPriceRating t homeId =
      { value := {}, err := some e,
        trace := [Event.run (sent t (Sprintf GetCurrentPriceRating.template [homeId])), Event.logError e] } := by
  have h2 := h
  simp only [sent, NewRequest, GetConsumption.document] at h2
  simp only [GetCurrentPriceRating, NewRequest, h2]
  rfl

theorem GetCurrentPriceRating_ok (t : Client) (homeId : String) (w : HomeResponse)
    (h : t.gqlClient.RunHome (sent t (Sprintf GetCurrentPriceRating.template [homeId])) {} = (w, none)) :
    GetCurrentPriceRating t homeId =
      { value := w.Viewer.Home.CurrentSubscription.PriceRating, err := none,
        trace := [Event.run (sent t (Sprintf GetCurrentPriceRating.template [homeId]))] } := by
  have h2 := h
  simp only [sent, NewRequest, GetConsumption.document] at h2
  simp only [GetCurrentPriceRating, NewRequest, h2]
  rfl

theorem GetTomorrowsPrice_fail (t : Client) (homeId : String) (w : HomeResponse) (e : Error)
    (h : t.gqlClient.RunHome (sent t (Sprintf GetTomorrowsPrice.template [homeId])) {} = (w, some e)) :
    GetTomorrowsPrice t homeId =
      { value := Slice.lit [], err := some e,
        trace := [Event.run (sent t (Sprintf GetTomorrowsPrice.template [homeId])), Event.logError e] } := by
  have h2 := h
  simp only [sent, NewRequest, GetConsumption.document] at h2
  simp only [GetTomorrowsPrice, NewRequest, h2]
  rfl

theorem GetTomorrowsPrice_ok (t : Client) (homeId : String) (w : HomeResponse)
    (h : t.gqlClient.RunHome (sent t (Sprintf GetTomorrowsPrice.template [homeId])) {} = (w, none)) :
    GetTomorrowsPrice t homeId =
      { value := w.Viewer.Home.CurrentSubscription.PriceInfo.Tomorrow, err := none,
        trace := [Event.run (sent t (Sprintf GetTomorrowsPrice.template [homeId]))] } := by
  have h2 := h
  simp only [sent, NewRequest, GetConsumption.document] at h2
  simp only [GetTomorrowsPrice, NewRequest, h2]
  rfl

theorem GetPriceInfo_fail (t : Client) (homeId : String) (w : HomeResponse) (e : Error)
    (h : t.gqlClient.RunHome (sent t (Sprintf GetPriceInfo.template [homeId])) {} = (w, some e)) :
    GetPriceInfo t homeId =
      { value := {}, err := some e,
        trace := [Event.run (sent t (Sprintf GetPriceInfo.template [homeId])), Event.logError e] } := by
  have h2 := h
  simp only [sent, NewRequest, GetConsumption.document] at h2
  simp only [GetPriceInfo, NewRequest, h2]
  rfl

theorem GetPriceInfo_ok (t : Client) (homeId : String) (w : HomeResponse)
    (h : t.gqlClient.RunHome (sent t (Sprintf GetPriceInfo.template [homeId])) {} = (w, none)) :
    GetPriceInfo t homeId =
      { value := w.Viewer.Home.CurrentSubscription.PriceInfo, err := none,
        trace := [Event.run (sent t (Sprintf GetPriceInfo.template [homeId]))] } := by
  have h2 := h
  simp only [sent, NewRequest, GetConsumption.document] at h2
  simp only [GetPriceInfo, NewRequest, h2]
  rfl

theorem GetConsumption_fail (t : Client) (homeId : String) (resolution : PriceResolution) (last : Int) (w : HomeResponse) (e : Error)
    (h : t.gqlClient.RunHome (sent t (GetConsumption.document homeId resolution last)) {} = (w, some e)) :
    GetConsumption t homeId resolution last =
      { value := Slice.lit [], err := some e,
        trace := [Event.run (sent t (GetConsumption.document homeId resolution last)), Event.logError e] } := by
  have h2 := h
  simp only [sent, NewRequest, GetConsumption.document] at h2
  simp only [GetConsumption, NewRequest, h2]
  rfl

theorem GetConsumption_ok (t : Client) (homeId : String) (resolution : PriceResolution) (last : Int) (w : HomeResponse)
    (h : t.gqlClient.RunHome (sent t (GetConsumption.document homeId resolution last)) {} = (w, none)) :
    GetConsumption t homeId resolution last =
      { value := w.Viewer.Home.Consumption.Nodes, err := none,
        trace := [Event.run (sent t (GetConsumption.document homeId resolution last))] } := by
  have h2 := h
  simp only [sent, NewRequest, GetConsumption.document] at h2
  simp only [GetConsumption, NewRequest, h2]
  rfl

/-! ## Transport calls and errors of each getter, whatever the outcome -/

theorem GetHomes_runs (t : Client) :
    runs (GetHomes t).trace = [sent t (GetHomes.template)]
      ∧ (GetHomes t).err = (t.gqlClient.RunHomes (sent t GetHomes.template) {}).2 := by
  rcases h : t.gqlClient.RunHomes (sent t GetHomes.template) {} with ⟨w, _ | e⟩
  · rw [GetHomes_ok t w h]
    exact ⟨rfl, rfl⟩
  · rw [GetHomes_fail t w e h]
    exact ⟨rfl, rfl⟩

theorem GetHomeById_runs (t : Client) (homeId : String) :
    runs (GetHomeById t homeId).trace = [sent t (Sprintf GetHomeById.template [homeId])]
      ∧ (GetHomeById t homeId).err = (t.gqlClient.RunHome (sent t (Sprintf GetHomeById.template [homeId])) {}).2 := by
  rcases h : t.gqlClient.RunHome (sent t (Sprintf GetHomeById.template [homeId])) {} with ⟨w, _ | e⟩
  · rw [GetHomeById_ok t homeId w h]
    exact ⟨rfl, rfl⟩
  · rw [GetHomeById_fail t homeId w e h]
    exact ⟨rfl, rfl⟩

theorem GetCurrentPrice_runs (t : Client) (homeId : String) :
    runs (GetCurrentPrice t homeId).trace = [sent t (Sprintf GetCurrentPrice.template [homeId])]
      ∧ (GetCurrentPrice t homeId).err = (t.gqlClient.RunHome (sent t (Sprintf GetCurrentPrice.template [homeId])) {}).2 := by
  rcases h : t.gqlClient.RunHome (sent t (Sprintf GetCurrentPrice.template [homeId])) {} with ⟨w, _ | e⟩
  · rw [GetCurrentPrice_ok t homeId w h]
    exact ⟨rfl, rfl⟩
  · rw [GetCurrentPrice_fail t homeId w e h]
    exact ⟨rfl, rfl⟩

theorem GetCurrentPriceRating_runs (t : Client) (homeId : String) :
    runs (GetCurrentPriceRating t homeId).trace = [sent t (Sprintf GetCurrentPriceRating.template [homeId])]
      ∧ (GetCurrentPriceRating t homeId).err = (t.gqlClient.RunHome (sent t (Sprintf GetCurrentPriceRating.template [homeId])) {}).2 := by
  rcases h : t.gqlClient.RunHome (sent t (Sprintf GetCurrentPriceRating.template [homeId])) {} with ⟨w, _ | e⟩
  · rw [GetCurrentPriceRating_ok t homeId w h]
    exact ⟨rfl, rfl⟩
  · rw [GetCurrentPriceRating_fail t homeId w e h]
    exact ⟨rfl, rfl⟩

theorem GetTomorrowsPrice_runs (t : Client) (homeId : String) :
    runs (GetTomorrowsPrice t homeId).trace = [sent t (Sprintf GetTomorrowsPrice.template [homeId])]
      ∧ (GetTomorrowsPrice t homeId).err = (t.gqlClient.RunHome (sent t (Sprintf GetTomorrowsPrice.template [homeId])) {}).2 := by
  rcases h : t.gqlClient.RunHome (sent t (Sprintf GetTomorrowsPrice.template [homeId])) {} with ⟨w, _ | e⟩
  · rw [GetTomorrowsPrice_ok t homeId w h]
    exact ⟨rfl, rfl⟩
  · rw [GetTomorrowsPrice_fail t homeId w e h]
    exact ⟨rfl, rfl⟩

theorem GetPriceInfo_runs (t : Client) (homeId : String) :
    runs (GetPriceInfo t homeId).trace = [sent t (Sprintf GetPriceInfo.template [homeId])]
      ∧ (GetPriceInfo t homeId).err = (t.gqlClient.RunHome (sent t (Sprintf GetPriceInfo.template [homeId])) {}).2 := by
  rcases h : t.gqlClient.RunHome (sent t (Sprintf GetPriceInfo.template [homeId])) {} with ⟨w, _ | e⟩
  · rw [GetPriceInfo_ok t homeId w h]
    exact ⟨rfl, rfl⟩
  · rw [GetPriceInfo_fail t homeId w e h]
    exact ⟨rfl, rfl⟩

theorem GetConsumption_runs (t : Client) (homeId : String) (resolution : PriceResolution) (last : Int) :
    runs (GetConsumption t homeId resolution last).trace = [sent t (GetConsumption.document homeId resolution last)]
      ∧ (GetConsumption t homeId resolution last).err = (t.gqlClient.RunHome (sent t (GetConsumption.document homeId resolution last)) {}).2 := by
  rcases h : t.gqlClient.RunHome (sent t (GetConsumption.document homeId resolution last)) {} with ⟨w, _ | e⟩
  · rw [GetConsumption_ok t homeId resolution last w h]
    exact ⟨rfl, rfl⟩
  · rw [GetConsumption_fail t homeId resolution last w e h]
    exact ⟨rfl, rfl⟩

theorem sent_headers (t : Client) (q : String) :
    Header.values (sent t q).Header "Cache-Control" = some ["no-cache"]
      ∧ Header.values (sent t q).Header "Authorization" = some ["Bearer " ++ t.Token] := by
  have h1 : ("Cache-Control" != "Authorization") = true := by decide
  have h2 : ("Authorization" == "Cache-Control") = false := by decide
  constructor
  · simp [sent, Header.Set, Header.values, List.filter, List.find?, h1, h2]
  · simp [sent, Header.Set, Header.values, List.find?]

/-! ## Each getter's outcome is that of one transport call -/

theorem GetHomes_dispatchedOnce (t : Client) :
    dispatchedOnce t (GetHomes.template) t.gqlClient.RunHomes {}
      (fun w => w.Viewer.Homes) Slice.nil (GetHomes t) := by
  refine ⟨sent t (GetHomes.template), (GetHomes_runs t).1, rfl, (sent_headers t _).1,
    (sent_headers t _).2, (GetHomes_runs t).2, ?_⟩
  rcases h : t.gqlClient.RunHomes (sent t (GetHomes.template)) {} with ⟨w, _ | e⟩
  · rw [GetHomes_ok t w h]
  · rw [GetHomes_fail t w e h]

theorem GetHomeById_dispatchedOnce (t : Client) (homeId : String) :
    dispatchedOnce t (Sprintf GetHomeById.template [homeId]) t.gqlClient.RunHome {}
      (fun w => w.Viewer.Home) {} (GetHomeById t homeId) := by
  refine ⟨sent t (Sprintf GetHomeById.template [homeId]), (GetHomeById_runs t homeId).1, rfl, (sent_headers t _).1,
    (sent_headers t _).2, (GetHomeById_runs t homeId).2, ?_⟩
  rcases h : t.gqlClient.RunHome (sent t (Sprintf GetHomeById.template [homeId])) {} with ⟨w, _ | e⟩
  · rw [GetHomeById_ok t homeId w h]
  · rw [GetHomeById_fail t homeId w e h]

theorem GetCurrentPrice_dispatchedOnce (t : Client) (homeId : String) :
    dispatchedOnce t (Sprintf GetCurrentPrice.template [homeId]) t.gqlClient.RunHome {}
      (fun w => w.Viewer.Home.CurrentSubscription.PriceInfo.Current) {} (GetCurrentPrice t homeId) := by
  refine ⟨sent t (Sprintf GetCurrentPrice.template [homeId]), (GetCurrentPrice_runs t homeId).1, rfl, (sent_headers t _).1,
    (sent_headers t _).2, (GetCurrentPrice_runs t homeId).2, ?_⟩
  rcases h : t.gqlClient.RunHome (sent t (Sprintf GetCurrentPrice.template [homeId])) {} with ⟨w, _ | e⟩
  · rw [GetCurrentPrice_ok t homeId w h]
  · rw [GetCurrentPrice_fail t homeId w e h]

theorem GetCurrentPriceRating_dispatchedOnce (t : Client) (homeId : String) :
    dispatchedOnce t (Sprintf GetCurrentPriceRating.template [homeId]) t.gqlClient.RunHome {}
      (fun w => w.Viewer.Home.CurrentSubscription.PriceRating) {} (GetCurrentPriceRating t homeId) := by
  refine ⟨sent t (Sprintf GetCurrentPriceRating.template [homeId]), (GetCurrentPriceRating_runs t homeId).1, rfl, (sent_headers t _).1,
    (sent_headers t _).2, (GetCurrentPriceRating_runs t homeId).2, ?_⟩
  rcases h : t.gqlClient.RunHome (sent t (Sprintf GetCurrentPriceRating.template [homeId])) {} with ⟨w, _ | e⟩
  · rw [GetCurrentPriceRating_ok t homeId w h]
  · rw [GetCurrentPriceRating_fail t homeId w e h]

theorem GetTomorrowsPrice_dispatchedOnce (t : Client) (homeId : String) :
    dispatchedOnce t (Sprintf GetTomorrowsPrice.template [homeId]) t.gqlClient.RunHome {}
      (fun w => w.Viewer.Home.CurrentSubscription.PriceInfo.Tomorrow) (Slice.lit []) (GetTomorrowsPrice t homeId) := by
  refine ⟨sent t (Sprintf GetTomorrowsPrice.template [homeId]), (GetTomorrowsPrice_runs t homeId).1, rfl, (sent_headers t _).1,
    (sent_headers t _).2, (GetTomorrowsPrice_runs t homeId).2, ?_⟩
  rcases h : t.gqlClient.RunHome (sent t (Sprintf GetTomorrowsPrice.template [homeId])) {} with ⟨w, _ | e⟩
  · rw [GetTomorrowsPrice_ok t homeId w h]
  · rw [GetTomorrowsPrice_fail t homeId w e h]

theorem GetPriceInfo_dispatchedOnce (t : Client) (homeId : String) :
    dispatchedOnce t (Sprintf GetPriceInfo.template [homeId]) t.gqlClient.RunHome {}
      (fun w => w.Viewer.Home.CurrentSubscription.PriceInfo) {} (GetPriceInfo t homeId) := by
  refine ⟨sent t (Sprintf GetPriceInfo.template [homeId]), (GetPriceInfo_runs t homeId).1, rfl, (sent_headers t _).1,
    (sent_headers t _).2, (GetPriceInfo_runs t homeId).2, ?_⟩
  rcases h : t.gqlClient.RunHome (sent t (Sprintf GetPriceInfo.template [homeId])) {} with ⟨w, _ | e⟩
  · rw [GetPriceInfo_ok t homeId w h]
  · rw [GetPriceInfo_fail t homeId w e h]

theorem GetConsumption_dispatchedOnce (t : Client) (homeId : String) (resolution : PriceResolution) (last : Int) :
    dispatchedOnce t (GetConsumption.document homeId resolution last) t.gqlClient.RunHome {}
      (fun w => w.Viewer.Home.Consumption.Nodes) (Slice.lit []) (GetConsumption t homeId resolution last) := by
  refine ⟨sent t (GetConsumption.document homeId resolution last), (GetConsumption_runs t homeId resolution last).1, rfl, (sent_headers t _).1,
    (sent_headers t _).2, (GetConsumption_runs t homeId resolution last).2, ?_⟩
  rcases h : t.gqlClient.RunHome (sent t (GetConsumption.document homeId resolution last)) {} with ⟨w, _ | e⟩
  · rw [GetConsumption_ok t homeId resolution last w h]
  · rw [GetConsumption_fail t homeId resolution last w e h]

/-! ## Occurrences in the formatted documents -/

theorem dquote_data : ("\"" : String).data = [dquote] := rfl

theorem homeHead_split :
    homeHead.data = homeHead.data.take 27 ++ "home(id:".data := by decide

theorem occursIn_home_literal (homeId rest : String) (r : List Char)
    (hr : rest.data = ')' :: r) :
    occursIn ("home(id:\"" ++ homeId ++ "\")")
      (homeHead ++ "\"" ++ homeId ++ "\"" ++ rest) := by
  refine ⟨homeHead.data.take 27, r, ?_⟩
  have e1 : ("home(id:\"" : String).data = "home(id:".data ++ [dquote] := by decide
  have e2 : ("\")" : String).data = [dquote, ')'] := by decide
  simp only [String.data_append, e1, e2, dquote_data, hr]
  conv_rhs => rw [homeHead_split]
  simp

theorem occurrences_home_literal (homeId rest : String) (hid : dquote ∉ homeId.data)
    (hrest : dquote ∉ rest.data) :
    occurrences ("\"" ++ homeId ++ "\"").data
      (homeHead ++ "\"" ++ homeId ++ "\"" ++ rest).data = 1 := by
  have hh : dquote ∉ homeHead.data := by decide
  have := occurrences_delimited dquote homeHead.data homeId.data rest.data hh hid hrest
  simpa [String.data_append, dquote_data] using this

theorem consumption_data (homeId tok num : String) :
    (homeHead ++ "\"" ++ homeId ++ "\"" ++ GetConsumption.beforeResolution ++ tok
        ++ GetConsumption.beforeLast ++ num ++ GetConsumption.afterLast).data
      = homeHead.data ++ dquote :: (homeId.data ++ dquote ::
          ((GetConsumption.beforeResolution.data ++ tok.data ++ ", last:".data)
            ++ ' ' :: (num.data ++ GetConsumption.afterLast.data))) := by
  have e : GetConsumption.beforeLast.data = ", last:".data ++ [' '] := by decide
  simp [String.data_append, dquote_data, e]
  rfl

/-- A text free of quotes, blanks and digits occurs in a consumption document
only where it occurs in one of its pieces. -/
theorem consumption_not_occursIn (pat homeId tok : String) (last : Int)
    (hne : pat.data ≠ []) (hq : dquote ∉ pat.data) (hsp : ' ' ∉ pat.data)
    (hdig : ∀ c ∈ "-0123456789".data, c ∉ pat.data)
    (h0 : ¬ pat.data <:+: homeHead.data)
    (hid : ¬ pat.data <:+: homeId.data)
    (h1 : ¬ pat.data <:+: GetConsumption.beforeResolution.data ++ tok.data ++ ", last:".data)
    (h3 : ¬ pat.data <:+: GetConsumption.afterLast.data) :
    ¬ occursIn pat (homeHead ++ "\"" ++ homeId ++ "\"" ++ GetConsumption.beforeResolution
        ++ tok ++ GetConsumption.beforeLast ++ Itoa last ++ GetConsumption.afterLast) := by
  unfold occursIn
  rw [consumption_data, infix_append_cons_iff _ _ _ hq, infix_append_cons_iff _ _ _ hq,
    infix_append_cons_iff _ _ _ hsp,
    infix_append_of_disjoint _ _ _ hne (fun c hc => hdig c (Itoa_chars last c hc))]
  rintro (h | h | h | h)
  · exact h0 h
  · exact hid h
  · exact h1 h
  · exact h3 h

theorem consumption_occursIn (homeId tok : String) (last : Int) :
    occursIn ("consumption(resolution: " ++ tok ++ ", last: " ++ Itoa last ++ ")")
      (homeHead ++ "\"" ++ homeId ++ "\"" ++ GetConsumption.beforeResolution
        ++ tok ++ GetConsumption.beforeLast ++ Itoa last ++ GetConsumption.afterLast) := by
  have e1 : GetConsumption.beforeResolution.data
      = GetConsumption.beforeResolution.data.take 10 ++ "consumption(resolution: ".data := by
    decide
  have e3 : GetConsumption.afterLast.data
      = ')' :: GetConsumption.afterLast.data.drop 1 := by decide
  refine ⟨homeHead.data ++ dquote :: (homeId.data ++ dquote ::
    GetConsumption.beforeResolution.data.take 10), GetConsumption.afterLast.data.drop 1, ?_⟩
  have e2 : GetConsumption.beforeLast.data = ", last: ".data := rfl
  have e4 : (")" : String).data = [')'] := rfl
  simp only [String.data_append, dquote_data, e2, e4]
  conv_rhs => rw [e1, e3]
  simp
  rfl

/-! ## Claims -/

/-- C1, as stated, fails: with a transport that fails, `GetTomorrowsPrice`
returns the transport's error, but the value next to it is an empty non-nil
slice and not the zero value of `[]Price`, which is the nil slice. -/
theorem GetTomorrowsPrice_error_value_not_zero :
    failingClient.gqlClient.RunHome
        (sent failingClient (Sprintf GetTomorrowsPrice.template ["home-1"])) {}
      = ({}, some { text := "timeout" })
    ∧ (GetTomorrowsPrice failingClient "home-1").err = some { text := "timeout" }
    ∧ (GetTomorrowsPrice failingClient "home-1").value = Slice.lit []
    ∧ ¬ ((GetTomorrowsPrice failingClient "home-1").value = Slice.nil
          ∧ (GetTomorrowsPrice failingClient "home-1").err = some { text := "timeout" }) := by
  refine ⟨rfl, rfl, rfl, ?_⟩
  rintro ⟨h, -⟩
  exact Slice.noConfusion h

/-- C1, amended: when the transport call of a getter returns an error `e`, the
getter returns exactly `e`, next to the nil slice for `GetHomes`, the zero
record for `GetHomeById`, `GetCurrentPrice`, `GetCurrentPriceRating` and
`GetPriceInfo`, and an empty non-nil slice (length 0) for `GetTomorrowsPrice`
and `GetConsumption`. -/
theorem getters_return_transport_error (t : Client) (homeId : String)
    (resolution : PriceResolution) (last : Int) (e : Error) :
    (∀ w, t.gqlClient.RunHomes (sent t GetHomes.template) {} = (w, some e) →
        (GetHomes t).value = Slice.nil ∧ (GetHomes t).err = some e)
    ∧ (∀ w, t.gqlClient.RunHome (sent t (Sprintf GetHomeById.template [homeId])) {}
          = (w, some e) →
        (GetHomeById t homeId).value = {} ∧ (GetHomeById t homeId).err = some e)
    ∧ (∀ w, t.gqlClient.RunHome (sent t (Sprintf GetCurrentPrice.template [homeId])) {}
          = (w, some e) →
        (GetCurrentPrice t homeId).value = {} ∧ (GetCurrentPrice t homeId).err = some e)
    ∧ (∀ w, t.gqlClient.RunHome (sent t (Sprintf GetCurrentPriceRating.template [homeId])) {}
          = (w, some e) →
        (GetCurrentPriceRating t homeId).value = {}
          ∧ (GetCurrentPriceRating t homeId).err = some e)
    ∧ (∀ w, t.gqlClient.RunHome (sent t (Sprintf GetPriceInfo.template [homeId])) {}
          = (w, some e) →
        (GetPriceInfo t homeId).value = {} ∧ (GetPriceInfo t homeId).err = some e)
    ∧ (∀ w, t.gqlClient.RunHome (sent t (Sprintf GetTomorrowsPrice.template [homeId])) {}
          = (w, some e) →
        (GetTomorrowsPrice t homeId).value = Slice.lit []
          ∧ (GetTomorrowsPrice t homeId).value.len = 0
          ∧ (GetTomorrowsPrice t homeId).err = some e)
    ∧ (∀ w, t.gqlClient.RunHome (sent t (GetConsumption.document homeId resolution last)) {}
          = (w, some e) →
        (GetConsumption t homeId resolution last).value = Slice.lit []
          ∧ (GetConsumption t homeId resolution last).value.len = 0
          ∧ (GetConsumption t homeId resolution last).err = some e) := by
  refine ⟨?_, ?_, ?_, ?_, ?_, ?_, ?_⟩
  · intro w h
    rw [GetHomes_fail t w e h]
    exact ⟨rfl, rfl⟩
  · intro w h
    rw [GetHomeById_fail t homeId w e h]
    exact ⟨rfl, rfl⟩
  · intro w h
    rw [GetCurrentPrice_fail t homeId w e h]
    exact ⟨rfl, rfl⟩
  · intro w h
    rw [GetCurrentPriceRating_fail t homeId w e h]
    exact ⟨rfl, rfl⟩
  · intro w h
    rw [GetPriceInfo_fail t homeId w e h]
    exact ⟨rfl, rfl⟩
  · intro w h
    rw [GetTomorrowsPrice_fail t homeId w e h]
    exact ⟨rfl, rfl, rfl⟩
  · intro w h
    rw [GetConsumption_fail t homeId resolution last w e h]
    exact ⟨rfl, rfl, rfl⟩

/-- C1, amended, at a concrete failing transport: every getter returns the
error `timeout` next to its empty value. -/
theorem getters_return_transport_error_witness :
    ((GetHomes failingClient).value = Slice.nil
      ∧ (GetHomes failingClient).err = some { text := "timeout" })
    ∧ ((GetHomeById failingClient "home-1").value = {}
      ∧ (GetHomeById failingClient "home-1").err = some { text := "timeout" })
    ∧ ((GetTomorrowsPrice failingClient "home-1").value = Slice.lit []
      ∧ (GetTomorrowsPrice failingClient "home-1").value.len = 0
      ∧ (GetTomorrowsPrice failingClient "home-1").err = some { text := "timeout" })
    ∧ ((GetConsumption failingClient "home-1" HOURLY 24).value = Slice.lit []
      ∧ (GetConsumption failingClient "home-1" HOURLY 24).value.len = 0
      ∧ (GetConsumption failingClient "home-1" HOURLY 24).err = some { text := "timeout" }) :=
  have h := getters_return_transport_error failingClient "home-1" HOURLY 24 { text := "timeout" }
  ⟨h.1 {} rfl, h.2.1 {} rfl, h.2.2.2.2.2.1 {} rfl, h.2.2.2.2.2.2 {} rfl⟩

/-- C2: whenever the transport decodes an envelope without error, each
home-scoped getter returns a nil error and its documented sub-path of that
envelope; on the sample envelope `GetCurrentPrice` returns the price with total
1.23, currency NOK and start 2024-01-01T00:00:00Z. -/
theorem home_getters_return_subpath (t : Client) (homeId : String)
    (resolution : PriceResolution) (last : Int) (env : HomeResponse) :
    (t.gqlClient.RunHome (sent t (Sprintf GetHomeById.template [homeId])) {} = (env, none) →
        (GetHomeById t homeId).err = none
          ∧ (GetHomeById t homeId).value = env.Viewer.Home)
    ∧ (t.gqlClient.RunHome (sent t (Sprintf GetCurrentPrice.template [homeId])) {}
          = (env, none) →
        (GetCurrentPrice t homeId).err = none
          ∧ (GetCurrentPrice t homeId).value
              = env.Viewer.Home.CurrentSubscription.PriceInfo.Current)
    ∧ (t.gqlClient.RunHome (sent t (Sprintf GetCurrentPriceRating.template [homeId])) {}
          = (env, none) →
        (GetCurrentPriceRating t homeId).err = none
          ∧ (GetCurrentPriceRating t homeId).value
              = env.Viewer.Home.CurrentSubscription.PriceRating)
    ∧ (t.gqlClient.RunHome (sent t (Sprintf GetTomorrowsPrice.template [homeId])) {}
          = (env, none) →
        (GetTomorrowsPrice t homeId).err = none
          ∧ (GetTomorrowsPrice t homeId).value
              = env.Viewer.Home.CurrentSubscription.PriceInfo.Tomorrow)
    ∧ (t.gqlClient.RunHome (sent t (Sprintf GetPriceInfo.template [homeId])) {}
          = (env, none) →
        (GetPriceInfo t homeId).err = none
          ∧ (GetPriceInfo t homeId).value = env.Viewer.Home.CurrentSubscription.PriceInfo)
    ∧ (t.gqlClient.RunHome (sent t (GetConsumption.document homeId resolution last)) {}
          = (env, none) →
        (GetConsumption t homeId resolution last).err = none
          ∧ (GetConsumption t homeId resolution last).value
              = env.Viewer.Home.Consumption.Nodes)
    ∧ (t.gqlClient.RunHome (sent t (Sprintf GetCurrentPrice.template [homeId])) {}
          = (sampleEnvelope, none) →
        (GetCurrentPrice t homeId).err = none
          ∧ (GetCurrentPrice t homeId).value.Total = { bits := 0x3FF3AE147AE147AE }
          ∧ (GetCurrentPrice t homeId).value.Currency = "NOK"
          ∧ (GetCurrentPrice t homeId).value.StartsAt = newYear2024) := by
  refine ⟨?_, ?_, ?_, ?_, ?_, ?_, ?_⟩
  · intro h
    rw [GetHomeById_ok t homeId env h]
    exact ⟨rfl, rfl⟩
  · intro h
    rw [GetCurrentPrice_ok t homeId env h]
    exact ⟨rfl, rfl⟩
  · intro h
    rw [GetCurrentPriceRating_ok t homeId env h]
    exact ⟨rfl, rfl⟩
  · intro h
    rw [GetTomorrowsPrice_ok t homeId env h]
    exact ⟨rfl, rfl⟩
  · intro h
    rw [GetPriceInfo_ok t homeId env h]
    exact ⟨rfl, rfl⟩
  · intro h
    rw [GetConsumption_ok t homeId resolution last env h]
    exact ⟨rfl, rfl⟩
  · intro h
    rw [GetCurrentPrice_ok t homeId sampleEnvelope h]
    exact ⟨rfl, rfl, rfl, rfl⟩

/-- C2 on concrete transports: one decoding the sample envelope, one decoding
the full fixture envelope. -/
theorem home_getters_return_subpath_witness :
    ((GetCurrentPrice (scriptedClient "token" ({}, none) (sampleEnvelope, none)) "home-1").err
        = none
      ∧ (GetCurrentPrice (scriptedClient "token" ({}, none) (sampleEnvelope, none))
          "home-1").value.Total = { bits := 0x3FF3AE147AE147AE }
      ∧ (GetCurrentPrice (scriptedClient "token" ({}, none) (sampleEnvelope, none))
          "home-1").value.Currency = "NOK"
      ∧ (GetCurrentPrice (scriptedClient "token" ({}, none) (sampleEnvelope, none))
          "home-1").value.StartsAt = newYear2024)
    ∧ ((GetTomorrowsPrice okClient "home-1").err = none
      ∧ (GetTomorrowsPrice okClient "home-1").value
          = Slice.lit [{ samplePrice with Level := "CHEAP" }, samplePrice])
    ∧ ((GetConsumption okClient "home-1" DAILY 7).err = none
      ∧ (GetConsumption okClient "home-1" DAILY 7).value
          = Slice.lit [{ ConsumptionUnit := "kWh", Currency := "NOK" }]) :=
  ⟨(home_getters_return_subpath (scriptedClient "token" ({}, none) (sampleEnvelope, none))
      "home-1" HOURLY 24 sampleEnvelope).2.2.2.2.2.2 rfl,
    (home_getters_return_subpath okClient "home-1" DAILY 7 fullEnvelope).2.2.2.1 rfl,
    (home_getters_return_subpath okClient "home-1" DAILY 7 fullEnvelope).2.2.2.2.2.1 rfl⟩

/-- C3: whenever the transport decodes an envelope without error, `GetHomes`
returns a nil error and the slice `viewer.homes` itself, hence the same homes in
the same order and number; when `viewer.homes` is absent (nil) or an empty
array, the result has no elements. -/
theorem GetHomes_returns_homes (t : Client) (env : HomesResponse)
    (h : t.gqlClient.RunHomes (sent t GetHomes.template) {} = (env, none)) :
    (GetHomes t).err = none
      ∧ (GetHomes t).value = env.Viewer.Homes
      ∧ (GetHomes t).value.toList = env.Viewer.Homes.toList
      ∧ (GetHomes t).value.len = env.Viewer.Homes.len
      ∧ (env.Viewer.Homes = Slice.nil ∨ env.Viewer.Homes = Slice.lit [] →
          (GetHomes t).value.toList = [] ∧ (GetHomes t).value.len = 0) := by
  rw [GetHomes_ok t env h]
  refine ⟨rfl, rfl, rfl, rfl, ?_⟩
  rintro (h0 | h0) <;> simp [h0, Slice.toList, Slice.len]

/-- C3 on the two-home fixture: exactly those two homes, in fixture order; and
on an absent and an empty `viewer.homes`: no elements. -/
theorem GetHomes_returns_homes_witness :
    (GetHomes okClient).err = none
      ∧ (GetHomes okClient).value.toList = [{ ID := "home-1" }, { ID := "home-2", Size := 120 }]
      ∧ (GetHomes okClient).value.len = 2
      ∧ (GetHomes (scriptedClient "token" ({}, none) ({}, none))).value.toList = []
      ∧ (GetHomes (scriptedClient "token" ({ Viewer := { Homes := Slice.lit [] } }, none)
          ({}, none))).value.toList = [] :=
  have h := GetHomes_returns_homes okClient twoHomes rfl
  ⟨h.1, h.2.2.1, h.2.2.2.1,
    ((GetHomes_returns_homes (scriptedClient "token" ({}, none) ({}, none)) {} rfl).2.2.2.2
      (Or.inl rfl)).1,
    ((GetHomes_returns_homes
      (scriptedClient "token" ({ Viewer := { Homes := Slice.lit [] } }, none) ({}, none))
      { Viewer := { Homes := Slice.lit [] } } rfl).2.2.2.2 (Or.inr rfl)).1⟩

/-- C8: `PriceResolution.String` returns `HOURLY` for HOURLY (0), `DAILY` for
DAILY (1) and `unknown` for every other value; the two tokens are distinct and
uppercase, and `GetConsumption` splices the result, unchanged, into the document
it sends. -/
theorem PriceResolution_String_spec :
    HOURLY = 0 ∧ DAILY = 1
    ∧ (∀ s : PriceResolution, PriceResolution.String s
        = if s = 0 then "HOURLY" else if s = 1 then "DAILY" else "unknown")
    ∧ PriceResolution.String HOURLY ≠ PriceResolution.String DAILY
    ∧ (PriceResolution.String HOURLY).data.all Char.isUpper = true
    ∧ (PriceResolution.String DAILY).data.all Char.isUpper = true
    ∧ (∀ (t : Client) (homeId : String) (resolution : PriceResolution) (last : Int),
        runs (GetConsumption t homeId resolution last).trace
          = [sent t (homeHead ++ "\"" ++ homeId ++ "\"" ++ GetConsumption.beforeResolution
              ++ PriceResolution.String resolution ++ GetConsumption.beforeLast ++ Itoa last
              ++ GetConsumption.afterLast)]) := by
  refine ⟨rfl, rfl, fun s => rfl, by decide, by decide, by decide, ?_⟩
  intro t homeId resolution last
  rw [(GetConsumption_runs t homeId resolution last).1, GetConsumption_document]

/-- C9: the outcome of every getter is that of exactly one transport call,
whether the call succeeds or fails: the trace holds one call, whose request has
the getter's document, the `Cache-Control` header `no-cache` and the
`Authorization` header `Bearer ` followed by the client's token; the error the
getter returns is the one the transport returns when applied to that request,
and the value is read from what the transport wrote on success and is the
getter's error value on failure. -/
theorem getters_dispatch_once_with_headers (t : Client) (homeId : String)
    (resolution : PriceResolution) (last : Int) :
    dispatchedOnce t GetHomes.template t.gqlClient.RunHomes {}
      (fun w => w.Viewer.Homes) Slice.nil (GetHomes t)
    ∧ dispatchedOnce t (Sprintf GetHomeById.template [homeId]) t.gqlClient.RunHome {}
      (fun w => w.Viewer.Home) {} (GetHomeById t homeId)
    ∧ dispatchedOnce t (Sprintf GetCurrentPrice.template [homeId]) t.gqlClient.RunHome {}
      (fun w => w.Viewer.Home.CurrentSubscription.PriceInfo.Current) {}
      (GetCurrentPrice t homeId)
    ∧ dispatchedOnce t (Sprintf GetCurrentPriceRating.template [homeId]) t.gqlClient.RunHome {}
      (fun w => w.Viewer.Home.CurrentSubscription.PriceRating) {}
      (GetCurrentPriceRating t homeId)
    ∧ dispatchedOnce t (Sprintf GetTomorrowsPrice.template [homeId]) t.gqlClient.RunHome {}
      (fun w => w.Viewer.Home.CurrentSubscription.PriceInfo.Tomorrow) (Slice.lit [])
      (GetTomorrowsPrice t homeId)
    ∧ dispatchedOnce t (Sprintf GetPriceInfo.template [homeId]) t.gqlClient.RunHome {}
      (fun w => w.Viewer.Home.CurrentSubscription.PriceInfo) {} (GetPriceInfo t homeId)
    ∧ dispatchedOnce t (GetConsumption.document homeId resolution last) t.gqlClient.RunHome {}
      (fun w => w.Viewer.Home.Consumption.Nodes) (Slice.lit [])
      (GetConsumption t homeId resolution last) :=
  ⟨GetHomes_dispatchedOnce t, GetHomeById_dispatchedOnce t homeId,
    GetCurrentPrice_dispatchedOnce t homeId, GetCurrentPriceRating_dispatchedOnce t homeId,
    GetTomorrowsPrice_dispatchedOnce t homeId, GetPriceInfo_dispatchedOnce t homeId,
    GetConsumption_dispatchedOnce t homeId resolution last⟩

/-- C4: for a home identifier without a double quote, the document
`GetHomeById` formats and sends is the fixed template with the identifier in
place of `%s`; the identifier wrapped in double quotes occurs in it exactly
once, as the argument of `home(id:"<identifier>")`. -/
theorem GetHomeById_document_quotes_identifier_once (t : Client) (homeId : String)
    (h : dquote ∉ homeId.data) :
    GetHomeById.template = homeHead ++ "\"%s\"" ++ afterId GetHomeById.template
    ∧ Sprintf GetHomeById.template [homeId]
        = homeHead ++ "\"" ++ homeId ++ "\"" ++ afterId GetHomeById.template
    ∧ occurrences ("\"" ++ homeId ++ "\"").data (Sprintf GetHomeById.template [homeId]).data = 1
    ∧ occursIn ("home(id:\"" ++ homeId ++ "\")") (Sprintf GetHomeById.template [homeId])
    ∧ runs (GetHomeById t homeId).trace = [sent t (Sprintf GetHomeById.template [homeId])] := by
  have hrest : dquote ∉ (afterId GetHomeById.template).data := by decide
  have hparen : (afterId GetHomeById.template).data
      = ')' :: (afterId GetHomeById.template).data.drop 1 := by decide
  refine ⟨by decide, GetHomeById_document homeId, ?_, ?_, (GetHomeById_runs t homeId).1⟩
  · rw [GetHomeById_document]
    exact occurrences_home_literal homeId _ h hrest
  · rw [GetHomeById_document]
    exact occursIn_home_literal homeId _ _ hparen

/-- C4 at the identifier `home-1`. -/
theorem GetHomeById_document_quotes_identifier_once_witness :
    dquote ∉ "home-1".data
    ∧ occurrences ("\"" ++ "home-1" ++ "\"").data
        (Sprintf GetHomeById.template ["home-1"]).data = 1
    ∧ occursIn ("home(id:\"" ++ "home-1" ++ "\")") (Sprintf GetHomeById.template ["home-1"]) :=
  have h := GetHomeById_document_quotes_identifier_once okClient "home-1" (by decide)
  ⟨by decide, h.2.2.1, h.2.2.2.1⟩

/-- C5: for a home identifier containing neither resolution token and any
count, the document `GetConsumption` formats and sends contains
`consumption(resolution: <token>, last: <count>)` with the bare canonical token
of the resolution and the bare decimal count, and does not contain the other
resolution token; this for HOURLY and for DAILY. The count is rendered as its
canonical decimal numeral: digits without a superfluous leading zero, after a
minus sign for a negative count, whose value is the count. -/
theorem GetConsumption_document_tokens (t : Client) (homeId : String) (last : Int)
    (hH : ¬ occursIn "HOURLY" homeId) (hD : ¬ occursIn "DAILY" homeId) :
    (occursIn ("consumption(resolution: " ++ "HOURLY" ++ ", last: " ++ Itoa last ++ ")")
        (GetConsumption.document homeId HOURLY last)
      ∧ ¬ occursIn "DAILY" (GetConsumption.document homeId HOURLY last)
      ∧ runs (GetConsumption t homeId HOURLY last).trace
          = [sent t (GetConsumption.document homeId HOURLY last)])
    ∧ (occursIn ("consumption(resolution: " ++ "DAILY" ++ ", last: " ++ Itoa last ++ ")")
        (GetConsumption.document homeId DAILY last)
      ∧ ¬ occursIn "HOURLY" (GetConsumption.document homeId DAILY last)
      ∧ runs (GetConsumption t homeId DAILY last).trace
          = [sent t (GetConsumption.document homeId DAILY last)])
    ∧ decimalInt (Itoa last).data = last
    ∧ canonicalDecimal (Itoa last).data = true
    ∧ Itoa last = (if last < 0 then "-" ++ Nat.repr last.natAbs else Nat.repr last.natAbs)
    ∧ occursIn "consumption(resolution: HOURLY, last: 24)"
        (GetConsumption.document homeId HOURLY 24) := by
  have tH : PriceResolution.String HOURLY = "HOURLY" := rfl
  have tD : PriceResolution.String DAILY = "DAILY" := rfl
  refine ⟨⟨?_, ?_, (GetConsumption_runs t homeId HOURLY last).1⟩,
    ⟨?_, ?_, (GetConsumption_runs t homeId DAILY last).1⟩,
    decimalInt_Itoa last, canonicalDecimal_Itoa last, Itoa_eq last, ?_⟩
  · rw [GetConsumption_document, tH]
    exact consumption_occursIn homeId "HOURLY" last
  · rw [GetConsumption_document, tH]
    exact consumption_not_occursIn "DAILY" homeId "HOURLY" last (by decide) (by decide)
      (by decide) (by decide) (not_infix_of_test _ _ (by decide)) hD
      (not_infix_of_test _ _ (by decide)) (not_infix_of_test _ _ (by decide))
  · rw [GetConsumption_document, tD]
    exact consumption_occursIn homeId "DAILY" last
  · rw [GetConsumption_document, tD]
    exact consumption_not_occursIn "HOURLY" homeId "DAILY" last (by decide) (by decide)
      (by decide) (by decide) (not_infix_of_test _ _ (by decide)) hH
      (not_infix_of_test _ _ (by decide)) (not_infix_of_test _ _ (by decide))
  · have h24 : ("consumption(resolution: HOURLY, last: 24)" : String)
        = "consumption(resolution: " ++ "HOURLY" ++ ", last: " ++ Itoa 24 ++ ")" := by decide
    rw [h24, GetConsumption_document, tH]
    exact consumption_occursIn homeId "HOURLY" 24

/-- C5 at identifier `home-1`: with resolution HOURLY and count 24 the document
contains `consumption(resolution: HOURLY, last: 24)` and not `DAILY`; with
resolution DAILY and count 7 it contains `consumption(resolution: DAILY, last: 7)`
and not `HOURLY`. -/
theorem GetConsumption_document_tokens_witness :
    ¬ occursIn "HOURLY" "home-1" ∧ ¬ occursIn "DAILY" "home-1"
    ∧ Itoa 24 = "24" ∧ Itoa 7 = "7" ∧ Itoa 0 = "0" ∧ Itoa 1000 = "1000"
    ∧ occursIn "consumption(resolution: HOURLY, last: 24)"
        (GetConsumption.document "home-1" HOURLY 24)
    ∧ ¬ occursIn "DAILY" (GetConsumption.document "home-1" HOURLY 24)
    ∧ occursIn "consumption(resolution: DAILY, last: 7)"
        (GetConsumption.document "home-1" DAILY 7)
    ∧ ¬ occursIn "HOURLY" (GetConsumption.document "home-1" DAILY 7)
    ∧ decimalInt "7".data = 7 ∧ canonicalDecimal "7".data = true :=
  have h := GetConsumption_document_tokens okClient "home-1" 24 (by decide) (by decide)
  have h7 := GetConsumption_document_tokens okClient "home-1" 7 (by decide) (by decide)
  ⟨by decide, by decide, by decide, by decide, by decide, by decide, h.2.2.2.2.2, h.1.2.1,
    h7.2.1.1, h7.2.1.2.1, h7.2.2.1, h7.2.2.2.1⟩

/-- C6, as stated, fails: with count -1 and a transport that succeeds,
`GetConsumption` signals no error, builds the document with `last: -1` and
calls the transport with it. -/
theorem GetConsumption_negative_count_not_rejected :
    (-1 : Int) < 0
    ∧ (GetConsumption okClient "home-1" HOURLY (-1)).err = none
    ∧ runs (GetConsumption okClient "home-1" HOURLY (-1)).trace
        = [sent okClient (GetConsumption.document "home-1" HOURLY (-1))]
    ∧ occursIn "consumption(resolution: HOURLY, last: -1)"
        (GetConsumption.document "home-1" HOURLY (-1))
    ∧ ¬ ((GetConsumption okClient "home-1" HOURLY (-1)).err ≠ none
          ∧ runs (GetConsumption okClient "home-1" HOURLY (-1)).trace = []) := by
  refine ⟨by decide, rfl, rfl, occursIn_of_test _ _ (by decide), ?_⟩
  rintro ⟨h, -⟩
  exact h rfl

/-- C6, amended: for every negative count `GetConsumption` validates nothing:
it formats the count with its minus sign as the `last` argument of the
document, calls the transport exactly once with that document, and returns
whatever error the transport returned (none when it returned none). -/
theorem GetConsumption_negative_count_dispatched (t : Client) (homeId : String)
    (resolution : PriceResolution) (last : Int) (h : last < 0) :
    runs (GetConsumption t homeId resolution last).trace
        = [sent t (GetConsumption.document homeId resolution last)]
    ∧ (GetConsumption t homeId resolution last).err
        = (t.gqlClient.RunHome (sent t (GetConsumption.document homeId resolution last)) {}).2
    ∧ Itoa last = "-" ++ Nat.repr last.natAbs
    ∧ occursIn ("consumption(resolution: " ++ PriceResolution.String resolution
          ++ ", last: " ++ Itoa last ++ ")")
        (GetConsumption.document homeId resolution last) := by
  refine ⟨(GetConsumption_runs t homeId resolution last).1,
    (GetConsumption_runs t homeId resolution last).2, ?_, ?_⟩
  · cases last with
    | ofNat n => exact absurd h (by simp)
    | negSucc n => rfl
  · rw [GetConsumption_document]
    exact consumption_occursIn homeId _ last

/-- C6, amended, at count -5 with a transport that succeeds. -/
theorem GetConsumption_negative_count_dispatched_witness :
    (-5 : Int) < 0
    ∧ runs (GetConsumption okClient "home-1" DAILY (-5)).trace
        = [sent okClient (GetConsumption.document "home-1" DAILY (-5))]
    ∧ (GetConsumption okClient "home-1" DAILY (-5)).err = none
    ∧ Itoa (-5) = "-5" :=
  have h := GetConsumption_negative_count_dispatched okClient "home-1" DAILY (-5) (by decide)
  ⟨by decide, h.1, h.2.1, by decide⟩

/-- C7, as stated, fails: for the identifier `a"b` and a transport that
succeeds, `GetHomeById` signals no error and calls the transport; the document
it hands over has the identifier spliced in unchanged, `home(id:"a"b")`, with
three double quotes and no backslash anywhere, so the quote is not escaped. -/
theorem GetHomeById_quote_not_rejected_nor_escaped :
    dquote ∈ "a\"b".data
    ∧ (GetHomeById okClient "a\"b").err = none
    ∧ runs (GetHomeById okClient "a\"b").trace
        = [sent okClient (homeHead ++ "\"a\"b\"" ++ afterId GetHomeById.template)]
    ∧ occursIn "home(id:\"a\"b\")" (homeHead ++ "\"a\"b\"" ++ afterId GetHomeById.template)
    ∧ (homeHead ++ "\"a\"b\"" ++ afterId GetHomeById.template).data.count dquote = 3
    ∧ backslash ∉ (homeHead ++ "\"a\"b\"" ++ afterId GetHomeById.template).data
    ∧ ¬ ((GetHomeById okClient "a\"b").err ≠ none
          ∧ runs (GetHomeById okClient "a\"b").trace = []) := by
  have hdoc : Sprintf GetHomeById.template ["a\"b"]
      = homeHead ++ "\"a\"b\"" ++ afterId GetHomeById.template := by decide
  refine ⟨by decide, rfl, ?_, occursIn_of_test _ _ (by decide), by decide, by decide, ?_⟩
  · rw [(GetHomeById_runs okClient "a\"b").1, hdoc]
  · rintro ⟨h, -⟩
    exact h rfl

/-- C7, amended: for every home identifier, with or without a double quote,
each identifier-taking getter validates and escapes nothing: it calls the
transport exactly once with the identifier spliced in unchanged between the
quotes of `home(id:"...")`, and returns whatever error the transport returned
for that request. -/
theorem identifier_spliced_verbatim (t : Client) (homeId : String)
    (resolution : PriceResolution) (last : Int) :
    (runs (GetHomeById t homeId).trace
        = [sent t (homeHead ++ "\"" ++ homeId ++ "\"" ++ afterId GetHomeById.template)]
      ∧ (GetHomeById t homeId).err = (t.gqlClient.RunHome
          (sent t (homeHead ++ "\"" ++ homeId ++ "\"" ++ afterId GetHomeById.template)) {}).2)
    ∧ (runs (GetCurrentPrice t homeId).trace
        = [sent t (homeHead ++ "\"" ++ homeId ++ "\"" ++ afterId GetCurrentPrice.template)]
      ∧ (GetCurrentPrice t homeId).err = (t.gqlClient.RunHome
          (sent t (homeHead ++ "\"" ++ homeId ++ "\"" ++ afterId GetCurrentPrice.template))
          {}).2)
    ∧ (runs (GetCurrentPriceRating t homeId).trace
        = [sent t (homeHead ++ "\"" ++ homeId ++ "\""
            ++ afterId GetCurrentPriceRating.template)]
      ∧ (GetCurrentPriceRating t homeId).err = (t.gqlClient.RunHome
          (sent t (homeHead ++ "\"" ++ homeId ++ "\""
            ++ afterId GetCurrentPriceRating.template)) {}).2)
    ∧ (runs (GetTomorrowsPrice t homeId).trace
        = [sent t (homeHead ++ "\"" ++ homeId ++ "\"" ++ afterId GetTomorrowsPrice.template)]
      ∧ (GetTomorrowsPrice t homeId).err = (t.gqlClient.RunHome
          (sent t (homeHead ++ "\"" ++ homeId ++ "\"" ++ afterId GetTomorrowsPrice.template))
          {}).2)
    ∧ (runs (GetPriceInfo t homeId).trace
        = [sent t (homeHead ++ "\"" ++ homeId ++ "\"" ++ afterId GetPriceInfo.template)]
      ∧ (GetPriceInfo t homeId).err = (t.gqlClient.RunHome
          (sent t (homeHead ++ "\"" ++ homeId ++ "\"" ++ afterId GetPriceInfo.template)) {}).2)
    ∧ (runs (GetConsumption t homeId resolution last).trace
        = [sent t (homeHead ++ "\"" ++ homeId ++ "\"" ++ GetConsumption.beforeResolution
            ++ PriceResolution.String resolution ++ GetConsumption.beforeLast ++ Itoa last
            ++ GetConsumption.afterLast)]
      ∧ (GetConsumption t homeId resolution last).err = (t.gqlClient.RunHome
          (sent t (homeHead ++ "\"" ++ homeId ++ "\"" ++ GetConsumption.beforeResolution
            ++ PriceResolution.String resolution ++ GetConsumption.beforeLast ++ Itoa last
            ++ GetConsumption.afterLast)) {}).2) := by
  refine ⟨?_, ?_, ?_, ?_, ?_, ?_⟩
  · rw [← GetHomeById_document]
    exact GetHomeById_runs t homeId
  · rw [← GetCurrentPrice_document]
    exact GetCurrentPrice_runs t homeId
  · rw [← GetCurrentPriceRating_document]
    exact GetCurrentPriceRating_runs t homeId
  · rw [← GetTomorrowsPrice_document]
    exact GetTomorrowsPrice_runs t homeId
  · rw [← GetPriceInfo_document]
    exact GetPriceInfo_runs t homeId
  · rw [← GetConsumption_document]
    exact GetConsumption_runs t homeId resolution last

/-- C7, amended, at the identifier `a"b` with a transport that succeeds:
`GetCurrentPrice` sends the document with the identifier unchanged and returns
no error. -/
theorem identifier_spliced_verbatim_witness :
    runs (GetCurrentPrice okClient "a\"b").trace
        = [sent okClient (homeHead ++ "\"" ++ "a\"b" ++ "\""
            ++ afterId GetCurrentPrice.template)]
    ∧ (GetCurrentPrice okClient "a\"b").err = none :=
  have h := identifier_spliced_verbatim okClient "a\"b" HOURLY 24
  ⟨h.2.1.1, h.2.1.2⟩

/-- C10 fails on the code: the document `GetCurrentPriceRating` formats (here
for the identifier `home-1`) selects `minEnergy`, `maxEnergy`, `minTotal`,
`currency` and `entries`, but `maxTotal` occurs nowhere in it nor in its
template, although `PriceRatingType` declares the field `MaxTotal`. -/
theorem GetCurrentPriceRating_document_omits_maxTotal :
    occursIn "minEnergy" (Sprintf GetCurrentPriceRating.template ["home-1"])
    ∧ occursIn "maxEnergy" (Sprintf GetCurrentPriceRating.template ["home-1"])
    ∧ occursIn "minTotal" (Sprintf GetCurrentPriceRating.template ["home-1"])
    ∧ occursIn "currency" (Sprintf GetCurrentPriceRating.template ["home-1"])
    ∧ occursIn "entries" (Sprintf GetCurrentPriceRating.template ["home-1"])
    ∧ ¬ occursIn "maxTotal" (Sprintf GetCurrentPriceRating.template ["home-1"])
    ∧ ¬ occursIn "maxTotal" GetCurrentPriceRating.template
    ∧ runs (GetCurrentPriceRating okClient "home-1").trace
        = [sent okClient (Sprintf GetCurrentPriceRating.template ["home-1"])] := by
  exact ⟨occursIn_of_test _ _ (by decide), occursIn_of_test _ _ (by decide),
    occursIn_of_test _ _ (by decide), occursIn_of_test _ _ (by decide),
    occursIn_of_test _ _ (by decide), not_occursIn_of_test _ _ (by decide),
    not_occursIn_of_test _ _ (by decide), (GetCurrentPriceRating_runs okClient "home-1").1⟩

end Tibber
